import Mathlib

/-!
Shallow embedding of the `PharmaBatchNFT` Solidity contract
(`src/awareness-feed/server.js`, embedded Solidity source): the
suspicious-item report ledger, reporter registry, identity-nullifier set,
bounty pool and high-risk index, together with the operations the
specification's claims are about.

Modelling conventions:
* `uint256`/`uint64`/`uint32`/`uint8` values are `Nat`, `int256` is `Int`.
  Solidity 0.8 uses checked arithmetic (a transaction that would overflow
  reverts), so every successful execution of the real contract computes the
  same unbounded values this model computes; the model may additionally
  "succeed" on astronomically large inputs where the chain would revert,
  which only widens the set of behaviours the safety theorems cover.
* Addresses and `bytes32` tokens are `Nat` (`0` plays the role of
  `address(0)` / `bytes32(0)`).
* A reverting `require` is an `Except.error`; a revert discards every state
  change, so an erroneous operation returns no state at all.
* External value transfers (`call{value: ...}`) can fail; the boolean
  `transferOk` oracle parameter stands for the outcome of that call.
* `ECDSA.recover` (external library cryptography) is modelled as an oracle
  input `recoveredSigner` supplied to `mintBatch`.
-/

namespace PharmaGuard

/-- Pointwise update of a map from `Nat` keys, mirroring a Solidity
`mapping` assignment. -/
def upd {α : Type} (f : Nat → α) (k : Nat) (v : α) : Nat → α :=
  fun x => if x = k then v else f x

/-- Pointwise update of a two-key map, mirroring a nested `mapping`. -/
def upd2 {α : Type} (f : Nat → Nat → α) (k1 k2 : Nat) (v : α) : Nat → Nat → α :=
  fun x y => if x = k1 ∧ y = k2 then v else f x y

/-- `enum ReportStatus { Pending, ConfirmedFake, RejectedFalse }`. -/
inductive ReportStatus where
  | pending
  | confirmedFake
  | rejectedFalse
deriving DecidableEq

/-- `struct ReporterProfile`. -/
structure ReporterProfile where
  reputation : Int
  reportsSubmitted : Nat
  reportsConfirmed : Nat
  reportsRejected : Nat
  openReports : Nat
  lastReportAt : Nat
  blocked : Bool
deriving DecidableEq

/-- The all-zero profile a Solidity `mapping` returns for an untouched key. -/
def ReporterProfile.empty : ReporterProfile :=
  { reputation := 0, reportsSubmitted := 0, reportsConfirmed := 0,
    reportsRejected := 0, openReports := 0, lastReportAt := 0, blocked := false }

/-- `struct Batch`.  The string/identity metadata fields of the Solidity
struct (`productName`, `batchNumber`, `apiHash`, custody fields, ...) are
never read by the report-ledger logic and are elided. -/
structure Batch where
  mfgDate : Nat
  expiryTimestamp : Nat
  lastVerified : Nat
  openReports : Nat
  pendingSevereReports : Nat
  quarantined : Bool
  flaggedHighRisk : Bool
deriving DecidableEq

/-- The all-zero batch record a Solidity `mapping` returns for an untouched
key. -/
def Batch.empty : Batch :=
  { mfgDate := 0, expiryTimestamp := 0, lastVerified := 0, openReports := 0,
    pendingSevereReports := 0, quarantined := false, flaggedHighRisk := false }

/-- `struct LabAttestation`. -/
structure LabAttestation where
  lab : Nat
  reportHash : Nat
  passed : Bool
  confidenceBps : Nat
  attestedAt : Nat
deriving DecidableEq

/-- `struct FakeReport`. -/
structure FakeReport where
  reportId : Nat
  tokenId : Nat
  reporter : Nat
  identityNullifier : Nat
  evidenceURI : String
  reason : String
  severity : Nat
  stakeAmount : Nat
  createdAt : Nat
  resolvedAt : Nat
  status : ReportStatus
  resolver : Nat
deriving DecidableEq

/-- Revert reasons, one constructor per distinct `require` message (plus the
OpenZeppelin `Pausable`/`AccessControl` reverts). -/
inductive CErr where
  | enforcedPause
  | expectedPause
  | missingRole
  | unknownBatch
  | unknownReport
  | alreadyResolved
  | nullifierRequired
  | nullifierUsed
  | badSeverity
  | reporterIsBlocked
  | duplicateOpenReport
  | tooManyOpenReports
  | cooldownActive
  | reputationTooLow
  | stakeTooLow
  | invalidReceiver
  | insufficientPool
  | transferFailed
  | payoutFailed
  | minStakeZero
  | mediumStakeTooLow
  | highStakeTooLow
  | invalidSlashBps
  | maxOpenZero
  | noFundsProvided
  | manufacturerInactive
  | licenseMissing
  | invalidRecipient
  | expiryNotFuture
  | invalidDates
  | signatureRequired
  | invalidSignature
  | tokenAlreadyMinted
  | labInactive
  | invalidConfidence
deriving DecidableEq

/-- Whether an `Except` result is a success. -/
def isOk {ε α : Type} : Except ε α → Bool
  | .ok _ => true
  | .error _ => false

/-- The full contract storage relevant to the report ledger.  Roles are the
`AccessControl` role memberships; `batchExists` models ERC721 ownership
(`_ownerOf(tokenId) != address(0)`). -/
structure ContractState where
  minStakeWei : Nat
  mediumStakeWei : Nat
  highStakeWei : Nat
  baseRewardWei : Nat
  falseReportSlashBps : Nat
  bountyPoolWei : Nat
  reportCooldownSec : Nat
  maxOpenReportsPerReporter : Nat
  minReputationForSeverityThree : Int
  tokenIdCounter : Nat
  reportIdCounter : Nat
  totalBatchesMinted : Nat
  totalReportsFiled : Nat
  totalOpenReports : Nat
  totalConfirmedFakeReports : Nat
  regulatorRole : Nat → Bool
  manufacturerRole : Nat → Bool
  labRole : Nat → Bool
  adminRole : Nat → Bool
  manufacturerActive : Nat → Bool
  manufacturerLicenseNo : Nat → String
  labActive : Nat → Bool
  reporterProfiles : Nat → ReporterProfile
  batchExists : Nat → Bool
  batches : Nat → Batch
  labAttestations : Nat → List LabAttestation
  reports : Nat → Option FakeReport
  reportsByBatch : Nat → List Nat
  identityNullifierUsed : Nat → Bool
  hasOpenReportForBatch : Nat → Nat → Bool
  highRiskBatchIds : List Nat
  highRiskIndexPlusOne : Nat → Nat
  paused : Bool

/-- The state right after the constructor runs with deployer `d`:
default policy parameters (`0.002 ether` = 2*10^15 wei, etc.), every role
granted to the deployer, and the bootstrap manufacturer/lab profiles. -/
def initialState (d : Nat) : ContractState where
  minStakeWei := 2000000000000000
  mediumStakeWei := 5000000000000000
  highStakeWei := 10000000000000000
  baseRewardWei := 2000000000000000
  falseReportSlashBps := 7000
  bountyPoolWei := 0
  reportCooldownSec := 21600
  maxOpenReportsPerReporter := 5
  minReputationForSeverityThree := 5
  tokenIdCounter := 0
  reportIdCounter := 0
  totalBatchesMinted := 0
  totalReportsFiled := 0
  totalOpenReports := 0
  totalConfirmedFakeReports := 0
  regulatorRole := fun a => a == d
  manufacturerRole := fun a => a == d
  labRole := fun a => a == d
  adminRole := fun a => a == d
  manufacturerActive := fun a => a == d
  manufacturerLicenseNo := fun a => if a = d then "BOOTSTRAP-LICENSE" else ""
  labActive := fun a => a == d
  reporterProfiles := fun _ => ReporterProfile.empty
  batchExists := fun _ => false
  batches := fun _ => Batch.empty
  labAttestations := fun _ => []
  reports := fun _ => none
  reportsByBatch := fun _ => []
  identityNullifierUsed := fun _ => false
  hasOpenReportForBatch := fun _ _ => false
  highRiskBatchIds := []
  highRiskIndexPlusOne := fun _ => 0
  paused := false

/-- `_setHighRisk(uint256 tokenId, bool highRisk)`: idempotent flag toggle
maintaining the dense array `_highRiskBatchIds` and the one-based position
map `_highRiskIndexPlusOne` with the swap-remove technique.
(In the removal branch the source reads `_highRiskBatchIds[lastIndex]`;
the model reads it with `List.getD _ _ 0`, which only differs on states
where the position map points into an empty array — states the coherence
theorem below shows are never produced.) -/
def setHighRisk (s : ContractState) (tokenId : Nat) (highRisk : Bool) : ContractState :=
  if (s.batches tokenId).flaggedHighRisk = highRisk then s
  else
    let s1 : ContractState :=
      { s with
        batches := upd s.batches tokenId ({ s.batches tokenId with flaggedHighRisk := highRisk }) }
    if highRisk then
      { s1 with
        highRiskBatchIds := s1.highRiskBatchIds ++ [tokenId],
        highRiskIndexPlusOne :=
          upd s1.highRiskIndexPlusOne tokenId (s1.highRiskBatchIds.length + 1) }
    else
      let indexPlusOne := s1.highRiskIndexPlusOne tokenId
      if 0 < indexPlusOne then
        let index := indexPlusOne - 1
        let lastIndex := s1.highRiskBatchIds.length - 1
        let s2 : ContractState :=
          if index ≠ lastIndex then
            let movedTokenId := s1.highRiskBatchIds.getD lastIndex 0
            { s1 with
              highRiskBatchIds := s1.highRiskBatchIds.set index movedTokenId,
              highRiskIndexPlusOne :=
                upd s1.highRiskIndexPlusOne movedTokenId (index + 1) }
          else s1
        { s2 with
          highRiskBatchIds := s2.highRiskBatchIds.dropLast,
          highRiskIndexPlusOne := upd s2.highRiskIndexPlusOne tokenId 0 }
      else s1

/-- `_requiredStake(uint8 severity)`. -/
def requiredStake (s : ContractState) (severity : Nat) : Nat :=
  if severity = 1 then s.minStakeWei
  else if severity = 2 then s.mediumStakeWei
  else s.highStakeWei

/-- `receive() external payable`: credits the whole sent value to the bounty
pool with no role or pause check whatsoever. -/
def receiveEther (s : ContractState) (_sender msgValue : Nat) : ContractState :=
  { s with bountyPoolWei := s.bountyPoolWei + msgValue }

/-- `setReporterBlocked(address reporter, bool blocked)` (regulator-gated). -/
def setReporterBlocked (s : ContractState) (sender reporter : Nat) (blocked : Bool) :
    Except CErr ContractState :=
  if s.regulatorRole sender = false then .error .missingRole
  else .ok { s with
    reporterProfiles := upd s.reporterProfiles reporter
      ({ s.reporterProfiles reporter with blocked := blocked }) }

/-- `setPolicyParameters(...)` (regulator-gated, validates tier ordering). -/
def setPolicyParameters (s : ContractState) (sender : Nat)
    (newMinStakeWei newMediumStakeWei newHighStakeWei newBaseRewardWei
      newFalseReportSlashBps newReportCooldownSec newMaxOpenReportsPerReporter : Nat)
    (newMinReputationForSeverityThree : Int) : Except CErr ContractState :=
  if s.regulatorRole sender = false then .error .missingRole
  else if newMinStakeWei = 0 then .error .minStakeZero
  else if newMediumStakeWei < newMinStakeWei then .error .mediumStakeTooLow
  else if newHighStakeWei < newMediumStakeWei then .error .highStakeTooLow
  else if 10000 < newFalseReportSlashBps then .error .invalidSlashBps
  else if newMaxOpenReportsPerReporter = 0 then .error .maxOpenZero
  else .ok { s with
    minStakeWei := newMinStakeWei,
    mediumStakeWei := newMediumStakeWei,
    highStakeWei := newHighStakeWei,
    baseRewardWei := newBaseRewardWei,
    falseReportSlashBps := newFalseReportSlashBps,
    reportCooldownSec := newReportCooldownSec,
    maxOpenReportsPerReporter := newMaxOpenReportsPerReporter,
    minReputationForSeverityThree := newMinReputationForSeverityThree }

/-- `fundBountyPool()` (regulator-gated, positive value). -/
def fundBountyPool (s : ContractState) (sender msgValue : Nat) :
    Except CErr ContractState :=
  if s.regulatorRole sender = false then .error .missingRole
  else if msgValue = 0 then .error .noFundsProvided
  else .ok { s with bountyPoolWei := s.bountyPoolWei + msgValue }

/-- `withdrawBountyPool(uint256 amount, address payable to)` (admin-gated;
the debit is checked against the pool balance before subtraction, and the
outgoing transfer may fail, reverting the whole call). -/
def withdrawBountyPool (s : ContractState) (sender dest amount : Nat)
    (transferOk : Bool) : Except CErr ContractState :=
  if s.adminRole sender = false then .error .missingRole
  else if dest = 0 then .error .invalidReceiver
  else if s.bountyPoolWei < amount then .error .insufficientPool
  else if transferOk = false then .error .transferFailed
  else .ok { s with bountyPoolWei := s.bountyPoolWei - amount }

/-- Success state of `_mintBatchInternal`: the fresh token id is the current
counter; the new batch starts with zero counters and cleared flags. -/
def mintOkState (s : ContractState) (now mfgDate expiryTimestamp : Nat) :
    ContractState :=
  { s with
    tokenIdCounter := s.tokenIdCounter + 1,
    totalBatchesMinted := s.totalBatchesMinted + 1,
    batchExists := upd s.batchExists s.tokenIdCounter true,
    batches := upd s.batches s.tokenIdCounter
      ({ mfgDate := mfgDate, expiryTimestamp := expiryTimestamp,
         lastVerified := now, openReports := 0, pendingSevereReports := 0,
         quarantined := false, flaggedHighRisk := false }) }

/-- `mintBatch`/`mintBatchWithCompliance` funnelled through
`_mintBatchInternal`.  `recoveredSigner` is the oracle result of
`ECDSA.recover` on the payload hash, and `sigPresent` models
`manufacturerSignature.length > 0`. -/
def mintBatch (s : ContractState) (sender now dest mfgDate expiryTimestamp : Nat)
    (sigPresent : Bool) (recoveredSigner : Nat) : Except CErr ContractState :=
  if s.paused then .error .enforcedPause
  else if s.manufacturerRole sender = false then .error .missingRole
  else if s.manufacturerActive sender = false then .error .manufacturerInactive
  else if (s.manufacturerLicenseNo sender).length = 0 then .error .licenseMissing
  else if dest = 0 then .error .invalidRecipient
  else if expiryTimestamp ≤ now then .error .expiryNotFuture
  else if expiryTimestamp < mfgDate then .error .invalidDates
  else if sigPresent = false then .error .signatureRequired
  else if recoveredSigner ≠ sender then .error .invalidSignature
  else if s.batchExists s.tokenIdCounter then .error .tokenAlreadyMinted
  else .ok (mintOkState s now mfgDate expiryTimestamp)

/-- Success state of `submitLabAttestation`. -/
def attestOkState (s : ContractState) (sender now tokenId reportHash : Nat)
    (passed : Bool) (confidenceBps : Nat) : ContractState :=
  let s1 : ContractState :=
    { s with
      labAttestations := upd s.labAttestations tokenId
        (s.labAttestations tokenId ++
          [({ lab := sender, reportHash := reportHash, passed := passed,
              confidenceBps := confidenceBps, attestedAt := now })]),
      batches := upd s.batches tokenId
        ({ s.batches tokenId with lastVerified := now }) }
  if passed = false then setHighRisk s1 tokenId true else s1

/-- `submitLabAttestation(uint256 tokenId, bytes32 reportHash, bool passed,
uint16 confidenceBps)` (lab-gated; a failed attestation forces the high-risk
flag on). -/
def submitLabAttestation (s : ContractState) (sender now tokenId reportHash : Nat)
    (passed : Bool) (confidenceBps : Nat) : Except CErr ContractState :=
  if s.paused then .error .enforcedPause
  else if s.labRole sender = false then .error .missingRole
  else if s.batchExists tokenId = false then .error .unknownBatch
  else if s.labActive sender = false then .error .labInactive
  else if 10000 < confidenceBps then .error .invalidConfidence
  else .ok (attestOkState s sender now tokenId reportHash passed confidenceBps)

/-- Success state of `setBatchQuarantine`. -/
def quarantineOkState (s : ContractState) (tokenId : Nat) (quarantined : Bool) :
    ContractState :=
  let s1 : ContractState :=
    { s with
      batches := upd s.batches tokenId ({ s.batches tokenId with quarantined := quarantined }) }
  if quarantined then setHighRisk s1 tokenId true
  else if (s1.batches tokenId).pendingSevereReports = 0 then
    setHighRisk s1 tokenId false
  else s1

/-- `setBatchQuarantine(uint256 tokenId, bool quarantined, string reasonCode)`
(regulator-gated). -/
def setBatchQuarantine (s : ContractState) (sender tokenId : Nat)
    (quarantined : Bool) (_reasonCode : String) : Except CErr ContractState :=
  if s.paused then .error .enforcedPause
  else if s.regulatorRole sender = false then .error .missingRole
  else if s.batchExists tokenId = false then .error .unknownBatch
  else .ok (quarantineOkState s tokenId quarantined)

/-- Success state of `reportSuspiciousBatch`: the new report is persisted as
`Pending` at the current id counter, the nullifier is consumed, counters are
bumped, and a severity-3 report forces the high-risk flag on. -/
def submitOkState (s : ContractState) (sender now msgValue tokenId nullifier : Nat)
    (evidenceURI reason : String) (severity : Nat) : ContractState :=
  let reportId := s.reportIdCounter
  let rep := s.reporterProfiles sender
  let b := s.batches tokenId
  let s1 : ContractState :=
    { s with
      reportIdCounter := reportId + 1,
      reports := upd s.reports reportId (some
        ({ reportId := reportId, tokenId := tokenId, reporter := sender,
           identityNullifier := nullifier, evidenceURI := evidenceURI,
           reason := reason, severity := severity, stakeAmount := msgValue,
           createdAt := now, resolvedAt := 0, status := .pending, resolver := 0 })),
      identityNullifierUsed := upd s.identityNullifierUsed nullifier true,
      reportsByBatch := upd s.reportsByBatch tokenId
        (s.reportsByBatch tokenId ++ [reportId]),
      hasOpenReportForBatch := upd2 s.hasOpenReportForBatch sender tokenId true,
      reporterProfiles := upd s.reporterProfiles sender
        ({ rep with
          reportsSubmitted := rep.reportsSubmitted + 1,
          openReports := rep.openReports + 1,
          lastReportAt := now }),
      batches := upd s.batches tokenId
        ({ b with
          openReports := b.openReports + 1,
          pendingSevereReports :=
            if severity = 3 then b.pendingSevereReports + 1
            else b.pendingSevereReports }),
      totalReportsFiled := s.totalReportsFiled + 1,
      totalOpenReports := s.totalOpenReports + 1 }
  if severity = 3 then setHighRisk s1 tokenId true else s1

/-- `reportSuspiciousBatch(...)`: the submit operation, preconditions checked
in source order (first failure wins).  Returns the new report id. -/
def reportSuspiciousBatch (s : ContractState) (sender now msgValue tokenId nullifier : Nat)
    (evidenceURI reason : String) (severity : Nat) :
    Except CErr (ContractState × Nat) :=
  if s.paused then .error .enforcedPause
  else if s.batchExists tokenId = false then .error .unknownBatch
  else if nullifier = 0 then .error .nullifierRequired
  else if s.identityNullifierUsed nullifier then .error .nullifierUsed
  else if ¬(1 ≤ severity ∧ severity ≤ 3) then .error .badSeverity
  else if (s.reporterProfiles sender).blocked then .error .reporterIsBlocked
  else if s.hasOpenReportForBatch sender tokenId then .error .duplicateOpenReport
  else if s.maxOpenReportsPerReporter ≤ (s.reporterProfiles sender).openReports then
    .error .tooManyOpenReports
  else if (s.reporterProfiles sender).lastReportAt ≠ 0 ∧
      now < (s.reporterProfiles sender).lastReportAt + s.reportCooldownSec then
    .error .cooldownActive
  else if severity = 3 ∧
      (s.reporterProfiles sender).reputation < s.minReputationForSeverityThree then
    .error .reputationTooLow
  else if msgValue < requiredStake s severity then .error .stakeTooLow
  else .ok (submitOkState s sender now msgValue tokenId nullifier evidenceURI reason severity,
            s.reportIdCounter)

/-- The shared (branch-independent) effects of `resolveReport` on report
`r` stored at key `reportId`: bookkeeping fields set, open counters
decremented with the source's defensive floors at zero, the per-batch open
marker cleared. -/
def resolveSharedState (s : ContractState) (sender now reportId : Nat)
    (r : FakeReport) (newStatus : ReportStatus) : ContractState :=
  let b := s.batches r.tokenId
  let p := s.reporterProfiles r.reporter
  { s with
    reports := upd s.reports reportId (some
      ({ r with resolver := sender, resolvedAt := now, status := newStatus })),
    batches := upd s.batches r.tokenId
      ({ b with
        openReports := if 0 < b.openReports then b.openReports - 1 else b.openReports,
        pendingSevereReports :=
          if r.severity = 3 ∧ 0 < b.pendingSevereReports then
            b.pendingSevereReports - 1
          else b.pendingSevereReports }),
    reporterProfiles := upd s.reporterProfiles r.reporter
      ({ p with openReports := if 0 < p.openReports then p.openReports - 1 else p.openReports }),
    hasOpenReportForBatch := upd2 s.hasOpenReportForBatch r.reporter r.tokenId false,
    totalOpenReports :=
      if 0 < s.totalOpenReports then s.totalOpenReports - 1 else s.totalOpenReports }

/-- The `confirmedFake = true` branch of `resolveReport`: reputation gains
`10 + severity*4`, payout is the full stake plus a reward of
`baseRewardWei * severity` capped at the current pool balance (which is
debited by exactly the reward), and the batch is quarantined and flagged
high-risk unconditionally. -/
def resolveConfirmedState (s : ContractState) (sender now reportId : Nat)
    (r : FakeReport) : ContractState × Nat :=
  let s1 := resolveSharedState s sender now reportId r .confirmedFake
  let p1 := s1.reporterProfiles r.reporter
  let s2 : ContractState :=
    { s1 with
      totalConfirmedFakeReports := s1.totalConfirmedFakeReports + 1,
      reporterProfiles := upd s1.reporterProfiles r.reporter
        ({ p1 with
          reportsConfirmed := p1.reportsConfirmed + 1,
          reputation := p1.reputation + ((10 + r.severity * 4 : Nat) : Int) }) }
  let reward := min (s.baseRewardWei * r.severity) s.bountyPoolWei
  let s3 : ContractState := { s2 with bountyPoolWei := s2.bountyPoolWei - reward }
  let s4 : ContractState :=
    { s3 with
      batches := upd s3.batches r.tokenId ({ s3.batches r.tokenId with quarantined := true }) }
  (setHighRisk s4 r.tokenId true, r.stakeAmount + reward)

/-- The `confirmedFake = false` branch of `resolveReport`: reputation loses
`12 + severity*6`, `slashed = floor(stake * falseReportSlashBps / 10000)` is
credited to the pool, payout is the remaining stake, the high-risk flag is
cleared when the batch is not quarantined and has no pending severe reports
left, and the reporter is blocked once reputation reaches `-100`. -/
def resolveRejectedState (s : ContractState) (sender now reportId : Nat)
    (r : FakeReport) : ContractState × Nat :=
  let s1 := resolveSharedState s sender now reportId r .rejectedFalse
  let p1 := s1.reporterProfiles r.reporter
  let s2 : ContractState :=
    { s1 with
      reporterProfiles := upd s1.reporterProfiles r.reporter
        ({ p1 with
          reportsRejected := p1.reportsRejected + 1,
          reputation := p1.reputation - ((12 + r.severity * 6 : Nat) : Int) }) }
  let slashed := r.stakeAmount * s.falseReportSlashBps / 10000
  let s3 : ContractState := { s2 with bountyPoolWei := s2.bountyPoolWei + slashed }
  let s4 : ContractState :=
    if (s3.batches r.tokenId).quarantined = false ∧
        (s3.batches r.tokenId).pendingSevereReports = 0 then
      setHighRisk s3 r.tokenId false
    else s3
  let p2 := s4.reporterProfiles r.reporter
  let s5 : ContractState :=
    if p2.reputation ≤ -100 then
      { s4 with
        reporterProfiles := upd s4.reporterProfiles r.reporter ({ p2 with blocked := true }) }
    else s4
  (s5, r.stakeAmount - slashed)

/-- `resolveReport(uint256 reportId, bool confirmedFake)` (regulator-gated,
pause-gated): settles a pending report exactly once; the payout transfer is
attempted last and a failed transfer reverts the whole call.  Returns the
payout. -/
def resolveReport (s : ContractState) (sender now reportId : Nat)
    (confirmedFake transferOk : Bool) : Except CErr (ContractState × Nat) :=
  if s.paused then .error .enforcedPause
  else if s.regulatorRole sender = false then .error .missingRole
  else
    match s.reports reportId with
    | none => .error .unknownReport
    | some r =>
      if r.reporter = 0 then .error .unknownReport
      else if r.status ≠ ReportStatus.pending then .error .alreadyResolved
      else
        let out :=
          if confirmedFake then resolveConfirmedState s sender now reportId r
          else resolveRejectedState s sender now reportId r
        if 0 < out.2 ∧ transferOk = false then .error .payoutFailed
        else .ok out

/-- `pause()` (regulator-gated; OpenZeppelin `_pause` reverts when already
paused). -/
def pauseOp (s : ContractState) (sender : Nat) : Except CErr ContractState :=
  if s.regulatorRole sender = false then .error .missingRole
  else if s.paused then .error .enforcedPause
  else .ok { s with paused := true }

/-- `unpause()` (regulator-gated; OpenZeppelin `_unpause` reverts when not
paused). -/
def unpauseOp (s : ContractState) (sender : Nat) : Except CErr ContractState :=
  if s.regulatorRole sender = false then .error .missingRole
  else if s.paused = false then .error .expectedPause
  else .ok { s with paused := false }

/-- Role bootstrap/administration (`grantRole`/`revokeRole`,
`registerManufacturer`, `registerLab`, `setInspector`) only reassigns the
authorization maps and stakeholder profiles; the spec treats it as an
external collaborator of the core (spec section 1), so it is modelled as one
step that replaces exactly those maps and touches nothing else. -/
def withRoles (s : ContractState) (reg man lab adm manAct : Nat → Bool)
    (manLic : Nat → String) (labAct : Nat → Bool) : ContractState :=
  { s with
    regulatorRole := reg, manufacturerRole := man, labRole := lab,
    adminRole := adm, manufacturerActive := manAct,
    manufacturerLicenseNo := manLic, labActive := labAct }

/-- One contract transaction, with all its external inputs (caller, block
timestamp, sent value, oracle outcomes). -/
inductive Act where
  | mint (sender now dest mfgDate expiryTimestamp : Nat) (sigPresent : Bool)
      (recoveredSigner : Nat)
  | attest (sender now tokenId reportHash : Nat) (passed : Bool) (confidenceBps : Nat)
  | quarantine (sender tokenId : Nat) (quarantined : Bool) (reasonCode : String)
  | report (sender now msgValue tokenId nullifier : Nat) (evidenceURI reason : String)
      (severity : Nat)
  | resolve (sender now reportId : Nat) (confirmedFake transferOk : Bool)
  | policy (sender p1 p2 p3 p4 p5 p6 p7 : Nat) (p8 : Int)
  | fund (sender msgValue : Nat)
  | withdraw (sender dest amount : Nat) (transferOk : Bool)
  | recv (sender msgValue : Nat)
  | pauseAct (sender : Nat)
  | unpauseAct (sender : Nat)
  | setBlocked (sender reporter : Nat) (blocked : Bool)
  | roleChange (reg man lab adm manAct : Nat → Bool) (manLic : Nat → String)
      (labAct : Nat → Bool)

/-- `stepTo a s s'` holds when transaction `a`, executed against state `s`,
succeeds and produces state `s'` (reverted transactions leave no state). -/
def stepTo (a : Act) (s s' : ContractState) : Prop :=
  match a with
  | .mint sender now dest mfgDate expiryTimestamp sigPresent recoveredSigner =>
      mintBatch s sender now dest mfgDate expiryTimestamp sigPresent recoveredSigner = .ok s'
  | .attest sender now tokenId reportHash passed confidenceBps =>
      submitLabAttestation s sender now tokenId reportHash passed confidenceBps = .ok s'
  | .quarantine sender tokenId quarantined reasonCode =>
      setBatchQuarantine s sender tokenId quarantined reasonCode = .ok s'
  | .report sender now msgValue tokenId nullifier evidenceURI reason severity =>
      ∃ rid, reportSuspiciousBatch s sender now msgValue tokenId nullifier
        evidenceURI reason severity = .ok (s', rid)
  | .resolve sender now reportId confirmedFake transferOk =>
      ∃ payout, resolveReport s sender now reportId confirmedFake transferOk = .ok (s', payout)
  | .policy sender p1 p2 p3 p4 p5 p6 p7 p8 =>
      setPolicyParameters s sender p1 p2 p3 p4 p5 p6 p7 p8 = .ok s'
  | .fund sender msgValue => fundBountyPool s sender msgValue = .ok s'
  | .withdraw sender dest amount transferOk =>
      withdrawBountyPool s sender dest amount transferOk = .ok s'
  | .recv sender msgValue => s' = receiveEther s sender msgValue
  | .pauseAct sender => pauseOp s sender = .ok s'
  | .unpauseAct sender => unpauseOp s sender = .ok s'
  | .setBlocked sender reporter blocked =>
      setReporterBlocked s sender reporter blocked = .ok s'
  | .roleChange reg man lab adm manAct manLic labAct =>
      s' = withRoles s reg man lab adm manAct manLic labAct

/-- One successful transaction of any kind. -/
def Step (s s' : ContractState) : Prop := ∃ a, stepTo a s s'

/-- Any finite sequence of successful transactions. -/
def Steps : ContractState → ContractState → Prop :=
  Relation.ReflTransGen Step

/-- A state is reachable when some transaction sequence produces it from a
freshly deployed contract. -/
def Reachable (s : ContractState) : Prop :=
  ∃ d, Steps (initialState d) s

/-! Derived predicates used by the specification's claims. -/

/-- The claim's list of qualifying risk conditions for item `t`: a pending
severe (severity-3) report, confirmed-fake history, quarantine, or a failed
lab attestation. -/
def QualifyingRisk (s : ContractState) (t : Nat) : Prop :=
  0 < (s.batches t).pendingSevereReports ∨
  (s.batches t).quarantined = true ∨
  (∃ id r, s.reports id = some r ∧ r.tokenId = t ∧ r.status = ReportStatus.confirmedFake) ∨
  (∃ a ∈ s.labAttestations t, a.passed = false)

/-- Claim C3 as stated: in a state, every item with a qualifying risk
condition carries the high-risk flag. -/
def HighRiskCoversRisk (s : ContractState) : Prop :=
  ∀ t, QualifyingRisk s t → (s.batches t).flaggedHighRisk = true

/-- The two risk conditions the code actually keeps the flag alive for:
quarantine and a positive pending-severe counter. -/
def CoreRisk (s : ContractState) (t : Nat) : Prop :=
  (s.batches t).quarantined = true ∨ 0 < (s.batches t).pendingSevereReports

/-- Amended C3 invariant: the flag covers quarantine and pending-severe
reports. -/
def HighRiskCoversCoreRisk (s : ContractState) : Prop :=
  ∀ t, CoreRisk s t → (s.batches t).flaggedHighRisk = true

/-- Claim C5's invariant: no reporter has more open reports than the current
policy maximum. -/
def OpenReportsBounded (s : ContractState) : Prop :=
  ∀ a, (s.reporterProfiles a).openReports ≤ s.maxOpenReportsPerReporter

/-- Every stored report id is below the id counter (ids are allocated from
the monotone counter and never reused). -/
def IdsBelowCounter (s : ContractState) : Prop :=
  ∀ id r, s.reports id = some r → id < s.reportIdCounter

/-- Report `reportId` exists and has been settled (its status is no longer
`Pending`). -/
def ReportSettled (reportId : Nat) (s : ContractState) : Prop :=
  ∃ r, s.reports reportId = some r ∧ r.reporter ≠ 0 ∧
    r.status ≠ ReportStatus.pending

/-- Coherence of the swap-remove high-risk index: no duplicates in the dense
array; the flag bit agrees with array membership; every array slot's item
has position entry slot+1; and every nonzero position entry points to an
array slot holding exactly that item. -/
def IndexCoherent (s : ContractState) : Prop :=
  s.highRiskBatchIds.Nodup ∧
  (∀ t, (s.batches t).flaggedHighRisk = true ↔ t ∈ s.highRiskBatchIds) ∧
  (∀ i, i < s.highRiskBatchIds.length →
      s.highRiskIndexPlusOne (s.highRiskBatchIds.getD i 0) = i + 1) ∧
  (∀ t, s.highRiskIndexPlusOne t ≠ 0 →
      s.highRiskIndexPlusOne t - 1 < s.highRiskBatchIds.length ∧
      s.highRiskBatchIds.getD (s.highRiskIndexPlusOne t - 1) 0 = t)

/-- Whether a transaction is a `setPolicyParameters` call. -/
def Act.isPolicyAct : Act → Bool
  | .policy _ _ _ _ _ _ _ _ _ => true
  | _ => false

/-- Whether a transaction is the regulator explicitly clearing `blocked` for
reporter `rep` via `setReporterBlocked(rep, false)`. -/
def Act.unblocksReporter (a : Act) (rep : Nat) : Bool :=
  match a with
  | .setBlocked _ r b => r == rep && b == false
  | _ => false

/-- Fold a sequence of `_setHighRisk` calls (the claims call them `setFlag`)
over a state. -/
def applyFlagCalls (s : ContractState) (l : List (Nat × Bool)) : ContractState :=
  l.foldl (fun st c => setHighRisk st c.1 c.2) s

/-- The desired flag value of `t` after a call sequence: the value of the
last call touching `t` (`false` when no call touched it) — equivalently,
`true` exactly when the last `setFlag(t, true)` was not followed by a later
`setFlag(t, false)`. -/
def lastFlag (l : List (Nat × Bool)) (t : Nat) : Bool :=
  l.foldl (fun b c => if c.1 = t then c.2 else b) false

/-! Concrete execution traces used by witnesses and counterexamples. -/

/-- Extract the success state of a state-only operation. -/
def okS (r : Except CErr ContractState) (dflt : ContractState) : ContractState :=
  match r with
  | .ok s => s
  | .error _ => dflt

/-- Extract the success state of an operation that also returns a number. -/
def okPairS (r : Except CErr (ContractState × Nat)) (dflt : ContractState) : ContractState :=
  match r with
  | .ok p => p.1
  | .error _ => dflt

/-- Fresh deployment by address 1. -/
def st0 : ContractState := initialState 1

/-- The regulator shrinks the policy numbers (stakes 1/2/3 wei, reward 1,
slash 7000 bps, no cooldown, max 5 open reports, no reputation gate). -/
def stPolicy : ContractState := okS (setPolicyParameters st0 1 1 2 3 1 7000 0 5 0) st0

/-- The deployer mints batch 0. -/
def stMint1 : ContractState := okS (mintBatch stPolicy 1 0 1 0 1000 true 1) stPolicy

/-- The deployer mints batch 1. -/
def stMint2 : ContractState := okS (mintBatch stMint1 1 0 1 0 1000 true 1) stMint1

/-- A failing lab attestation on batch 0 (forces the high-risk flag on). -/
def stAttest : ContractState := okS (submitLabAttestation stMint1 1 0 0 77 false 9000) stMint1

/-- Reporter 2 files a severity-1 report (id 0) against batch 0 with
nullifier 11 and stake 1 wei. -/
def stReport : ContractState := okPairS (reportSuspiciousBatch stAttest 2 0 1 0 11 "" "" 1) stAttest

/-- The regulator resolves report 0 as RejectedFalse: the high-risk flag is
cleared although the failed attestation still stands. -/
def stResolved : ContractState := okPairS (resolveReport stReport 1 5 0 false true) stReport

/-- Reporter 2 files report 0 against batch 0 (nullifier 21). -/
def stTwo1 : ContractState := okPairS (reportSuspiciousBatch stMint2 2 1 1 0 21 "" "" 1) stMint2

/-- Reporter 2 files report 1 against batch 1 (nullifier 22), reaching two
simultaneous open reports. -/
def stTwo2 : ContractState := okPairS (reportSuspiciousBatch stTwo1 2 1 1 1 22 "" "" 1) stTwo1

/-- The regulator then lowers `maxOpenReportsPerReporter` to 1 while
reporter 2 still has two open reports. -/
def stShrunk : ContractState := okS (setPolicyParameters stTwo2 1 1 2 3 1 7000 0 1 0) stTwo2

/-- The regulator blocks reporter 5 by hand. -/
def stBlocked : ContractState := okS (setReporterBlocked st0 1 5 true) st0

/-- The regulator unblocks reporter 5 again. -/
def stUnblocked : ContractState := okS (setReporterBlocked stBlocked 1 5 false) stBlocked

/-- The regulator resolves report 0 as ConfirmedFake instead (alternative
branch from `stReport`). -/
def stConfirmed : ContractState := okPairS (resolveReport stReport 1 5 0 true true) stReport

/-- The regulator quarantines batch 0. -/
def stQuar : ContractState := okS (setBatchQuarantine stMint1 1 0 true "CDSCO") stMint1

/-- The regulator funds the pool with 5 wei from the fresh deployment. -/
def stFund : ContractState := okS (fundBountyPool st0 1 5) st0

/-- The regulator funds the pool with 5 wei after blocking reporter 5. -/
def stBlockedFund : ContractState := okS (fundBountyPool stBlocked 1 5) stBlocked

/-- The regulator pauses the fresh deployment. -/
def stPaused : ContractState := okS (pauseOp st0 1) st0

/-- The regulator unpauses again. -/
def stUnpaused : ContractState := okS (unpauseOp stPaused 1) stPaused

/-- The report record created by the submit call in `stReport`. -/
def cexReport1 : FakeReport :=
  { reportId := 0, tokenId := 0, reporter := 2, identityNullifier := 11,
    evidenceURI := "", reason := "", severity := 1, stakeAmount := 1,
    createdAt := 0, resolvedAt := 0, status := ReportStatus.pending, resolver := 0 }

/-- The failing lab attestation recorded in `stAttest`. -/
def cexAttest : LabAttestation :=
  { lab := 1, reportHash := 77, passed := false, confidenceBps := 9000, attestedAt := 0 }

/-! Basic lemmas about map updates. -/

theorem upd_same {α : Type} (f : Nat → α) (k : Nat) (v : α) : upd f k v k = v := by
  simp [upd]

theorem upd_ne {α : Type} (f : Nat → α) (k : Nat) (v : α) {x : Nat} (h : x ≠ k) :
    upd f k v x = f x := by
  simp [upd, h]

theorem upd_apply {α : Type} (f : Nat → α) (k : Nat) (v : α) (x : Nat) :
    upd f k v x = if x = k then v else f x := rfl

theorem upd2_apply {α : Type} (f : Nat → Nat → α) (k1 k2 : Nat) (v : α) (x y : Nat) :
    upd2 f k1 k2 v x y = if x = k1 ∧ y = k2 then v else f x y := rfl

/-! Frame lemmas for `setHighRisk`: it only touches the flag bit, the dense
array and the position map. -/

theorem setHighRisk_flag (s : ContractState) (t : Nat) (b : Bool) (u : Nat) :
    ((setHighRisk s t b).batches u).flaggedHighRisk =
      if u = t then b else (s.batches u).flaggedHighRisk := by
  unfold setHighRisk
  dsimp only
  split_ifs <;> (try simp only [upd_apply]) <;> (try split) <;> simp_all

theorem setHighRisk_quarantined (s : ContractState) (t : Nat) (b : Bool) (u : Nat) :
    ((setHighRisk s t b).batches u).quarantined = (s.batches u).quarantined := by
  unfold setHighRisk
  dsimp only
  split_ifs <;> simp only [upd_apply] <;> split <;> simp_all

theorem setHighRisk_pendingSevere (s : ContractState) (t : Nat) (b : Bool) (u : Nat) :
    ((setHighRisk s t b).batches u).pendingSevereReports =
      (s.batches u).pendingSevereReports := by
  unfold setHighRisk
  dsimp only
  split_ifs <;> simp only [upd_apply] <;> split <;> simp_all

theorem setHighRisk_openReportsB (s : ContractState) (t : Nat) (b : Bool) (u : Nat) :
    ((setHighRisk s t b).batches u).openReports = (s.batches u).openReports := by
  unfold setHighRisk
  dsimp only
  split_ifs <;> simp only [upd_apply] <;> split <;> simp_all

theorem setHighRisk_reports (s : ContractState) (t : Nat) (b : Bool) :
    (setHighRisk s t b).reports = s.reports := by
  unfold setHighRisk
  dsimp only
  split_ifs <;> rfl

theorem setHighRisk_reporterProfiles (s : ContractState) (t : Nat) (b : Bool) :
    (setHighRisk s t b).reporterProfiles = s.reporterProfiles := by
  unfold setHighRisk
  dsimp only
  split_ifs <;> rfl

theorem setHighRisk_reportIdCounter (s : ContractState) (t : Nat) (b : Bool) :
    (setHighRisk s t b).reportIdCounter = s.reportIdCounter := by
  unfold setHighRisk
  dsimp only
  split_ifs <;> rfl

theorem setHighRisk_maxOpen (s : ContractState) (t : Nat) (b : Bool) :
    (setHighRisk s t b).maxOpenReportsPerReporter = s.maxOpenReportsPerReporter := by
  unfold setHighRisk
  dsimp only
  split_ifs <;> rfl

theorem setHighRisk_nullifiers (s : ContractState) (t : Nat) (b : Bool) :
    (setHighRisk s t b).identityNullifierUsed = s.identityNullifierUsed := by
  unfold setHighRisk
  dsimp only
  split_ifs <;> rfl

theorem setHighRisk_pool (s : ContractState) (t : Nat) (b : Bool) :
    (setHighRisk s t b).bountyPoolWei = s.bountyPoolWei := by
  unfold setHighRisk
  dsimp only
  split_ifs <;> rfl

theorem setHighRisk_labAttestations (s : ContractState) (t : Nat) (b : Bool) :
    (setHighRisk s t b).labAttestations = s.labAttestations := by
  unfold setHighRisk
  dsimp only
  split_ifs <;> rfl

theorem setHighRisk_paused (s : ContractState) (t : Nat) (b : Bool) :
    (setHighRisk s t b).paused = s.paused := by
  unfold setHighRisk
  dsimp only
  split_ifs <;> rfl

theorem setHighRisk_slashBps (s : ContractState) (t : Nat) (b : Bool) :
    (setHighRisk s t b).falseReportSlashBps = s.falseReportSlashBps := by
  unfold setHighRisk
  dsimp only
  split_ifs <;> rfl

/-! Success-case elimination lemmas: a successful call pins down every
precondition and the exact output state. -/

theorem setPolicyParameters_ok {s s' : ContractState} {sender p1 p2 p3 p4 p5 p6 p7 : Nat}
    {p8 : Int} (h : setPolicyParameters s sender p1 p2 p3 p4 p5 p6 p7 p8 = .ok s') :
    s.regulatorRole sender = true ∧ p1 ≠ 0 ∧ p1 ≤ p2 ∧ p2 ≤ p3 ∧ p5 ≤ 10000 ∧ p7 ≠ 0 ∧
    s' = { s with
      minStakeWei := p1, mediumStakeWei := p2, highStakeWei := p3,
      baseRewardWei := p4, falseReportSlashBps := p5, reportCooldownSec := p6,
      maxOpenReportsPerReporter := p7, minReputationForSeverityThree := p8 } := by
  unfold setPolicyParameters at h
  split_ifs at h with h1 h2 h3 h4 h5 h6 <;> injection h with h
  subst h
  refine ⟨?_, h2, ?_, ?_, ?_, h6, rfl⟩
  · simpa using h1
  · omega
  · omega
  · omega

theorem fundBountyPool_ok {s s' : ContractState} {sender msgValue : Nat}
    (h : fundBountyPool s sender msgValue = .ok s') :
    s.regulatorRole sender = true ∧ msgValue ≠ 0 ∧
    s' = { s with bountyPoolWei := s.bountyPoolWei + msgValue } := by
  unfold fundBountyPool at h
  split_ifs at h with h1 h2 <;> injection h with h
  subst h
  exact ⟨by simpa using h1, h2, rfl⟩

theorem withdrawBountyPool_ok {s s' : ContractState} {sender dest amount : Nat}
    {transferOk : Bool} (h : withdrawBountyPool s sender dest amount transferOk = .ok s') :
    s.adminRole sender = true ∧ dest ≠ 0 ∧ amount ≤ s.bountyPoolWei ∧ transferOk = true ∧
    s' = { s with bountyPoolWei := s.bountyPoolWei - amount } := by
  unfold withdrawBountyPool at h
  split_ifs at h with h1 h2 h3 h4 <;> injection h with h
  subst h
  exact ⟨by simpa using h1, h2, by omega, by simpa using h4, rfl⟩

theorem setReporterBlocked_ok {s s' : ContractState} {sender reporter : Nat} {blocked : Bool}
    (h : setReporterBlocked s sender reporter blocked = .ok s') :
    s.regulatorRole sender = true ∧
    s' = { s with
      reporterProfiles := upd s.reporterProfiles reporter
        ({ s.reporterProfiles reporter with blocked := blocked }) } := by
  unfold setReporterBlocked at h
  split_ifs at h with h1 <;> injection h with h
  subst h
  exact ⟨by simpa using h1, rfl⟩

theorem pauseOp_ok {s s' : ContractState} {sender : Nat} (h : pauseOp s sender = .ok s') :
    s.regulatorRole sender = true ∧ s.paused = false ∧ s' = { s with paused := true } := by
  unfold pauseOp at h
  split_ifs at h with h1 h2 <;> injection h with h
  subst h
  exact ⟨by simpa using h1, by simpa using h2, rfl⟩

theorem unpauseOp_ok {s s' : ContractState} {sender : Nat} (h : unpauseOp s sender = .ok s') :
    s.regulatorRole sender = true ∧ s.paused = true ∧ s' = { s with paused := false } := by
  unfold unpauseOp at h
  split_ifs at h with h1 h2 <;> injection h with h
  subst h
  exact ⟨by simpa using h1, by simpa using h2, rfl⟩

theorem submitLabAttestation_ok {s s' : ContractState}
    {sender now tokenId reportHash : Nat} {passed : Bool} {confidenceBps : Nat}
    (h : submitLabAttestation s sender now tokenId reportHash passed confidenceBps = .ok s') :
    s.paused = false ∧ s.labRole sender = true ∧ s.batchExists tokenId = true ∧
    s.labActive sender = true ∧ confidenceBps ≤ 10000 ∧
    s' = attestOkState s sender now tokenId reportHash passed confidenceBps := by
  unfold submitLabAttestation at h
  split_ifs at h with h1 h2 h3 h4 h5 <;> injection h with h
  subst h
  exact ⟨by simpa using h1, by simpa using h2, by simpa using h3, by simpa using h4,
    by omega, rfl⟩

theorem setBatchQuarantine_ok {s s' : ContractState} {sender tokenId : Nat}
    {quarantined : Bool} {reasonCode : String}
    (h : setBatchQuarantine s sender tokenId quarantined reasonCode = .ok s') :
    s.paused = false ∧ s.regulatorRole sender = true ∧ s.batchExists tokenId = true ∧
    s' = quarantineOkState s tokenId quarantined := by
  unfold setBatchQuarantine at h
  split_ifs at h with h1 h2 h3 <;> injection h with h
  subst h
  exact ⟨by simpa using h1, by simpa using h2, by simpa using h3, rfl⟩

end PharmaGuard

namespace PharmaGuard

set_option maxHeartbeats 1000000 in
theorem mintBatch_ok {s s' : ContractState} {sender now dest mfgDate expiryTimestamp : Nat}
    {sigPresent : Bool} {recoveredSigner : Nat}
    (h : mintBatch s sender now dest mfgDate expiryTimestamp sigPresent recoveredSigner = .ok s') :
    s.paused = false ∧ s.batchExists s.tokenIdCounter = false ∧
    s' = mintOkState s now mfgDate expiryTimestamp := by
  unfold mintBatch at h
  split at h
  · exact Except.noConfusion h
  rename_i h1
  split at h
  · exact Except.noConfusion h
  split at h
  · exact Except.noConfusion h
  split at h
  · exact Except.noConfusion h
  split at h
  · exact Except.noConfusion h
  split at h
  · exact Except.noConfusion h
  split at h
  · exact Except.noConfusion h
  split at h
  · exact Except.noConfusion h
  split at h
  · exact Except.noConfusion h
  split at h
  · exact Except.noConfusion h
  rename_i h10
  injection h with h
  subst h
  exact ⟨by simpa using h1, by simpa using h10, rfl⟩

set_option maxHeartbeats 1000000 in
theorem reportSuspiciousBatch_ok {s : ContractState} {out : ContractState × Nat}
    {sender now msgValue tokenId nullifier : Nat} {evidenceURI reason : String} {severity : Nat}
    (h : reportSuspiciousBatch s sender now msgValue tokenId nullifier
      evidenceURI reason severity = .ok out) :
    s.paused = false ∧ s.batchExists tokenId = true ∧ nullifier ≠ 0 ∧
    s.identityNullifierUsed nullifier = false ∧ (1 ≤ severity ∧ severity ≤ 3) ∧
    (s.reporterProfiles sender).blocked = false ∧
    s.hasOpenReportForBatch sender tokenId = false ∧
    (s.reporterProfiles sender).openReports < s.maxOpenReportsPerReporter ∧
    requiredStake s severity ≤ msgValue ∧
    out = (submitOkState s sender now msgValue tokenId nullifier evidenceURI reason severity,
           s.reportIdCounter) := by
  unfold reportSuspiciousBatch at h
  by_cases h1 : s.paused = true
  · rw [if_pos h1] at h; exact Except.noConfusion h
  rw [if_neg h1] at h
  by_cases h2 : s.batchExists tokenId = false
  · rw [if_pos h2] at h; exact Except.noConfusion h
  rw [if_neg h2] at h
  by_cases h3 : nullifier = 0
  · rw [if_pos h3] at h; exact Except.noConfusion h
  rw [if_neg h3] at h
  by_cases h4 : s.identityNullifierUsed nullifier = true
  · rw [if_pos h4] at h; exact Except.noConfusion h
  rw [if_neg h4] at h
  by_cases h5 : ¬(1 ≤ severity ∧ severity ≤ 3)
  · rw [if_pos h5] at h; exact Except.noConfusion h
  rw [if_neg h5] at h
  by_cases h6 : (s.reporterProfiles sender).blocked = true
  · rw [if_pos h6] at h; exact Except.noConfusion h
  rw [if_neg h6] at h
  by_cases h7 : s.hasOpenReportForBatch sender tokenId = true
  · rw [if_pos h7] at h; exact Except.noConfusion h
  rw [if_neg h7] at h
  by_cases h8 : s.maxOpenReportsPerReporter ≤ (s.reporterProfiles sender).openReports
  · rw [if_pos h8] at h; exact Except.noConfusion h
  rw [if_neg h8] at h
  by_cases h9 : (s.reporterProfiles sender).lastReportAt ≠ 0 ∧
      now < (s.reporterProfiles sender).lastReportAt + s.reportCooldownSec
  · rw [if_pos h9] at h; exact Except.noConfusion h
  rw [if_neg h9] at h
  by_cases h10 : severity = 3 ∧
      (s.reporterProfiles sender).reputation < s.minReputationForSeverityThree
  · rw [if_pos h10] at h; exact Except.noConfusion h
  rw [if_neg h10] at h
  by_cases h11 : msgValue < requiredStake s severity
  · rw [if_pos h11] at h; exact Except.noConfusion h
  rw [if_neg h11] at h
  injection h with h
  subst h
  refine ⟨by simpa using h1, by simpa using h2, h3, by simpa using h4, not_not.mp h5,
    by simpa using h6, by simpa using h7, by omega, by omega, rfl⟩

set_option maxHeartbeats 1000000 in
theorem resolveReport_ok {s : ContractState} {out : ContractState × Nat}
    {sender now reportId : Nat} {confirmedFake transferOk : Bool}
    (h : resolveReport s sender now reportId confirmedFake transferOk = .ok out) :
    s.paused = false ∧ s.regulatorRole sender = true ∧
    ∃ r, s.reports reportId = some r ∧ r.reporter ≠ 0 ∧ r.status = ReportStatus.pending ∧
      out = (if confirmedFake then resolveConfirmedState s sender now reportId r
             else resolveRejectedState s sender now reportId r) ∧
      (0 < out.2 → transferOk = true) := by
  unfold resolveReport at h
  split at h
  · exact Except.noConfusion h
  rename_i hpause
  split at h
  · exact Except.noConfusion h
  rename_i hrole
  split at h
  · exact Except.noConfusion h
  rename_i r hsome
  dsimp only at h
  split at h
  · exact Except.noConfusion h
  rename_i hrep
  split at h
  · exact Except.noConfusion h
  rename_i hstat
  split at h
  all_goals
    rename_i hc
    split at h
    · exact Except.noConfusion h
    rename_i htrans
    injection h with h
    subst h
    refine ⟨by simpa using hpause, by simpa using hrole, r, hsome, hrep,
      by simpa using hstat, by simp [hc], ?_⟩
    intro hpos
    rcases Bool.eq_false_or_eq_true transferOk with ht | hf
    · exact ht
    · exact absurd ⟨hpos, hf⟩ htrans

/-! Projection lemmas for `attestOkState`. -/

theorem attestOk_nullifiers (s : ContractState) (sender now tokenId reportHash : Nat)
    (passed : Bool) (confidenceBps : Nat) :
    (attestOkState s sender now tokenId reportHash passed confidenceBps).identityNullifierUsed =
      s.identityNullifierUsed := by
  unfold attestOkState
  dsimp only
  split
  · rw [setHighRisk_nullifiers]
  · rfl

theorem attestOk_profiles (s : ContractState) (sender now tokenId reportHash : Nat)
    (passed : Bool) (confidenceBps : Nat) :
    (attestOkState s sender now tokenId reportHash passed confidenceBps).reporterProfiles =
      s.reporterProfiles := by
  unfold attestOkState
  dsimp only
  split
  · rw [setHighRisk_reporterProfiles]
  · rfl

theorem attestOk_reports (s : ContractState) (sender now tokenId reportHash : Nat)
    (passed : Bool) (confidenceBps : Nat) :
    (attestOkState s sender now tokenId reportHash passed confidenceBps).reports = s.reports := by
  unfold attestOkState
  dsimp only
  split
  · rw [setHighRisk_reports]
  · rfl

theorem attestOk_counter (s : ContractState) (sender now tokenId reportHash : Nat)
    (passed : Bool) (confidenceBps : Nat) :
    (attestOkState s sender now tokenId reportHash passed confidenceBps).reportIdCounter =
      s.reportIdCounter := by
  unfold attestOkState
  dsimp only
  split
  · rw [setHighRisk_reportIdCounter]
  · rfl

theorem attestOk_maxOpen (s : ContractState) (sender now tokenId reportHash : Nat)
    (passed : Bool) (confidenceBps : Nat) :
    (attestOkState s sender now tokenId reportHash passed confidenceBps).maxOpenReportsPerReporter =
      s.maxOpenReportsPerReporter := by
  unfold attestOkState
  dsimp only
  split
  · rw [setHighRisk_maxOpen]
  · rfl

theorem attestOk_quar (s : ContractState) (sender now tokenId reportHash : Nat)
    (passed : Bool) (confidenceBps : Nat) (u : Nat) :
    ((attestOkState s sender now tokenId reportHash passed confidenceBps).batches u).quarantined =
      (s.batches u).quarantined := by
  unfold attestOkState
  dsimp only
  split
  · rw [setHighRisk_quarantined]
    by_cases hu : u = tokenId <;> simp [upd_apply, hu]
  · by_cases hu : u = tokenId <;> simp [upd_apply, hu]

theorem attestOk_pend (s : ContractState) (sender now tokenId reportHash : Nat)
    (passed : Bool) (confidenceBps : Nat) (u : Nat) :
    ((attestOkState s sender now tokenId reportHash passed
        confidenceBps).batches u).pendingSevereReports =
      (s.batches u).pendingSevereReports := by
  unfold attestOkState
  dsimp only
  split
  · rw [setHighRisk_pendingSevere]
    by_cases hu : u = tokenId <;> simp [upd_apply, hu]
  · by_cases hu : u = tokenId <;> simp [upd_apply, hu]

theorem attestOk_flag_mono (s : ContractState) (sender now tokenId reportHash : Nat)
    (passed : Bool) (confidenceBps : Nat) (u : Nat)
    (hflag : (s.batches u).flaggedHighRisk = true) :
    ((attestOkState s sender now tokenId reportHash passed
        confidenceBps).batches u).flaggedHighRisk = true := by
  unfold attestOkState
  dsimp only
  split
  · rw [setHighRisk_flag]
    by_cases hu : u = tokenId
    · subst hu; simp [upd_apply]
    · simp [upd_apply, hu, hflag]
  · by_cases hu : u = tokenId
    · subst hu; simp [upd_apply, hflag]
    · simp [upd_apply, hu, hflag]

/-! Projection lemmas for `quarantineOkState`. -/

theorem quarOk_nullifiers (s : ContractState) (tokenId : Nat) (q : Bool) :
    (quarantineOkState s tokenId q).identityNullifierUsed = s.identityNullifierUsed := by
  unfold quarantineOkState
  dsimp only
  split_ifs <;> (try rw [setHighRisk_nullifiers]) <;> rfl

theorem quarOk_profiles (s : ContractState) (tokenId : Nat) (q : Bool) :
    (quarantineOkState s tokenId q).reporterProfiles = s.reporterProfiles := by
  unfold quarantineOkState
  dsimp only
  split_ifs <;> (try rw [setHighRisk_reporterProfiles]) <;> rfl

theorem quarOk_reports (s : ContractState) (tokenId : Nat) (q : Bool) :
    (quarantineOkState s tokenId q).reports = s.reports := by
  unfold quarantineOkState
  dsimp only
  split_ifs <;> (try rw [setHighRisk_reports]) <;> rfl

theorem quarOk_counter (s : ContractState) (tokenId : Nat) (q : Bool) :
    (quarantineOkState s tokenId q).reportIdCounter = s.reportIdCounter := by
  unfold quarantineOkState
  dsimp only
  split_ifs <;> (try rw [setHighRisk_reportIdCounter]) <;> rfl

theorem quarOk_maxOpen (s : ContractState) (tokenId : Nat) (q : Bool) :
    (quarantineOkState s tokenId q).maxOpenReportsPerReporter =
      s.maxOpenReportsPerReporter := by
  unfold quarantineOkState
  dsimp only
  split_ifs <;> (try rw [setHighRisk_maxOpen]) <;> rfl

theorem quarOk_quar (s : ContractState) (tokenId : Nat) (q : Bool) (u : Nat) :
    ((quarantineOkState s tokenId q).batches u).quarantined =
      if u = tokenId then q else (s.batches u).quarantined := by
  unfold quarantineOkState
  dsimp only
  split_ifs <;> (try rw [setHighRisk_quarantined]) <;>
    by_cases hu : u = tokenId <;> simp_all [upd_apply]

theorem quarOk_pend (s : ContractState) (tokenId : Nat) (q : Bool) (u : Nat) :
    ((quarantineOkState s tokenId q).batches u).pendingSevereReports =
      (s.batches u).pendingSevereReports := by
  unfold quarantineOkState
  dsimp only
  split_ifs <;> (try rw [setHighRisk_pendingSevere]) <;>
    by_cases hu : u = tokenId <;> simp_all [upd_apply]

theorem quarOk_flag_true (s : ContractState) (tokenId : Nat)
    (hq : q = true) (u : Nat) (hu : u = tokenId) :
    ((quarantineOkState s tokenId q).batches u).flaggedHighRisk = true := by
  subst hq hu
  unfold quarantineOkState
  dsimp only
  rw [if_pos rfl, setHighRisk_flag]
  simp

theorem quarOk_flag_other (s : ContractState) (tokenId : Nat) (q : Bool) (u : Nat)
    (hu : u ≠ tokenId) :
    ((quarantineOkState s tokenId q).batches u).flaggedHighRisk =
      (s.batches u).flaggedHighRisk := by
  unfold quarantineOkState
  dsimp only
  split_ifs <;> (try rw [setHighRisk_flag]) <;> simp [upd_apply, hu]

theorem quarOk_flag_keep (s : ContractState) (tokenId : Nat) (u : Nat)
    (hpend : (s.batches tokenId).pendingSevereReports ≠ 0) :
    ((quarantineOkState s tokenId false).batches u).flaggedHighRisk =
      if u = tokenId then (s.batches tokenId).flaggedHighRisk
      else (s.batches u).flaggedHighRisk := by
  unfold quarantineOkState
  dsimp only
  rw [if_neg (by simp)]
  rw [if_neg (by simpa [upd_apply] using hpend)]
  by_cases hu : u = tokenId <;> simp [upd_apply, hu]

/-! Projection lemmas for `submitOkState`. -/

theorem submitOk_nullifiers (s : ContractState) (sender now msgValue tokenId nullifier : Nat)
    (evidenceURI reason : String) (severity : Nat) :
    (submitOkState s sender now msgValue tokenId nullifier evidenceURI reason
        severity).identityNullifierUsed =
      upd s.identityNullifierUsed nullifier true := by
  unfold submitOkState
  dsimp only
  split
  · rw [setHighRisk_nullifiers]
  · rfl

theorem submitOk_profiles_self (s : ContractState)
    (sender now msgValue tokenId nullifier : Nat) (evidenceURI reason : String)
    (severity : Nat) :
    (submitOkState s sender now msgValue tokenId nullifier evidenceURI reason
        severity).reporterProfiles sender =
      ({ s.reporterProfiles sender with
          reportsSubmitted := (s.reporterProfiles sender).reportsSubmitted + 1,
          openReports := (s.reporterProfiles sender).openReports + 1,
          lastReportAt := now }) := by
  unfold submitOkState
  dsimp only
  split
  · rw [setHighRisk_reporterProfiles]; simp [upd_apply]
  · simp [upd_apply]

theorem submitOk_profiles_other (s : ContractState)
    (sender now msgValue tokenId nullifier : Nat) (evidenceURI reason : String)
    (severity : Nat) (x : Nat) (hx : x ≠ sender) :
    (submitOkState s sender now msgValue tokenId nullifier evidenceURI reason
        severity).reporterProfiles x = s.reporterProfiles x := by
  unfold submitOkState
  dsimp only
  split
  · rw [setHighRisk_reporterProfiles]; simp [upd_apply, hx]
  · simp [upd_apply, hx]

theorem submitOk_reports (s : ContractState) (sender now msgValue tokenId nullifier : Nat)
    (evidenceURI reason : String) (severity : Nat) :
    (submitOkState s sender now msgValue tokenId nullifier evidenceURI reason
        severity).reports =
      upd s.reports s.reportIdCounter (some
        ({ reportId := s.reportIdCounter, tokenId := tokenId, reporter := sender,
           identityNullifier := nullifier, evidenceURI := evidenceURI,
           reason := reason, severity := severity, stakeAmount := msgValue,
           createdAt := now, resolvedAt := 0, status := .pending, resolver := 0 })) := by
  unfold submitOkState
  dsimp only
  split
  · rw [setHighRisk_reports]
  · rfl

theorem submitOk_counter (s : ContractState) (sender now msgValue tokenId nullifier : Nat)
    (evidenceURI reason : String) (severity : Nat) :
    (submitOkState s sender now msgValue tokenId nullifier evidenceURI reason
        severity).reportIdCounter = s.reportIdCounter + 1 := by
  unfold submitOkState
  dsimp only
  split
  · rw [setHighRisk_reportIdCounter]
  · rfl

theorem submitOk_maxOpen (s : ContractState) (sender now msgValue tokenId nullifier : Nat)
    (evidenceURI reason : String) (severity : Nat) :
    (submitOkState s sender now msgValue tokenId nullifier evidenceURI reason
        severity).maxOpenReportsPerReporter = s.maxOpenReportsPerReporter := by
  unfold submitOkState
  dsimp only
  split
  · rw [setHighRisk_maxOpen]
  · rfl

theorem submitOk_quar (s : ContractState) (sender now msgValue tokenId nullifier : Nat)
    (evidenceURI reason : String) (severity : Nat) (u : Nat) :
    ((submitOkState s sender now msgValue tokenId nullifier evidenceURI reason
        severity).batches u).quarantined = (s.batches u).quarantined := by
  unfold submitOkState
  dsimp only
  split
  · rw [setHighRisk_quarantined]
    by_cases hu : u = tokenId <;> simp [upd_apply, hu]
  · by_cases hu : u = tokenId <;> simp [upd_apply, hu]

theorem submitOk_pend (s : ContractState) (sender now msgValue tokenId nullifier : Nat)
    (evidenceURI reason : String) (severity : Nat) (u : Nat) :
    ((submitOkState s sender now msgValue tokenId nullifier evidenceURI reason
        severity).batches u).pendingSevereReports =
      if u = tokenId ∧ severity = 3 then (s.batches u).pendingSevereReports + 1
      else (s.batches u).pendingSevereReports := by
  unfold submitOkState
  dsimp only
  split
  · rw [setHighRisk_pendingSevere]
    by_cases hu : u = tokenId <;> simp [upd_apply, hu] <;> simp_all
  · rename_i hsev
    by_cases hu : u = tokenId <;> simp [upd_apply, hu, hsev]

theorem submitOk_flag3 (s : ContractState) (sender now msgValue tokenId nullifier : Nat)
    (evidenceURI reason : String) (severity : Nat) (hsev : severity = 3) :
    ((submitOkState s sender now msgValue tokenId nullifier evidenceURI reason
        severity).batches tokenId).flaggedHighRisk = true := by
  unfold submitOkState
  dsimp only
  rw [if_pos hsev, setHighRisk_flag]
  simp

theorem submitOk_flag_other (s : ContractState)
    (sender now msgValue tokenId nullifier : Nat) (evidenceURI reason : String)
    (severity : Nat) (u : Nat) (hu : u ≠ tokenId) :
    ((submitOkState s sender now msgValue tokenId nullifier evidenceURI reason
        severity).batches u).flaggedHighRisk = (s.batches u).flaggedHighRisk := by
  unfold submitOkState
  dsimp only
  split
  · rw [setHighRisk_flag]
    simp [upd_apply, hu]
  · simp [upd_apply, hu]

theorem submitOk_flag_not3 (s : ContractState)
    (sender now msgValue tokenId nullifier : Nat) (evidenceURI reason : String)
    (severity : Nat) (hsev : severity ≠ 3) (u : Nat) :
    ((submitOkState s sender now msgValue tokenId nullifier evidenceURI reason
        severity).batches u).flaggedHighRisk = (s.batches u).flaggedHighRisk := by
  unfold submitOkState
  dsimp only
  rw [if_neg hsev]
  by_cases hu : u = tokenId <;> simp [upd_apply, hu]

/-! A frame lemma for `setHighRisk` on other batches, projection lemmas for
`resolveSharedState` (plain record update, all definitional), and projection
lemmas for the two resolve outcome states. -/

theorem setHighRisk_batches_other (s : ContractState) (t : Nat) (b : Bool) (u : Nat)
    (hu : u ≠ t) : (setHighRisk s t b).batches u = s.batches u := by
  unfold setHighRisk
  dsimp only
  split_ifs <;> simp [upd_apply, hu]

theorem rsPool (s : ContractState) (sender now reportId : Nat) (r : FakeReport)
    (ns : ReportStatus) :
    (resolveSharedState s sender now reportId r ns).bountyPoolWei = s.bountyPoolWei := rfl

theorem rsNullifiers (s : ContractState) (sender now reportId : Nat) (r : FakeReport)
    (ns : ReportStatus) :
    (resolveSharedState s sender now reportId r ns).identityNullifierUsed =
      s.identityNullifierUsed := rfl

theorem rsCounter (s : ContractState) (sender now reportId : Nat) (r : FakeReport)
    (ns : ReportStatus) :
    (resolveSharedState s sender now reportId r ns).reportIdCounter =
      s.reportIdCounter := rfl

theorem rsMaxOpen (s : ContractState) (sender now reportId : Nat) (r : FakeReport)
    (ns : ReportStatus) :
    (resolveSharedState s sender now reportId r ns).maxOpenReportsPerReporter =
      s.maxOpenReportsPerReporter := rfl

theorem rsProfiles (s : ContractState) (sender now reportId : Nat) (r : FakeReport)
    (ns : ReportStatus) :
    (resolveSharedState s sender now reportId r ns).reporterProfiles =
      upd s.reporterProfiles r.reporter
        ({ s.reporterProfiles r.reporter with
            openReports := if 0 < (s.reporterProfiles r.reporter).openReports then
                (s.reporterProfiles r.reporter).openReports - 1
              else (s.reporterProfiles r.reporter).openReports }) := rfl

theorem rsReports (s : ContractState) (sender now reportId : Nat) (r : FakeReport)
    (ns : ReportStatus) :
    (resolveSharedState s sender now reportId r ns).reports =
      upd s.reports reportId (some
        ({ r with resolver := sender, resolvedAt := now, status := ns })) := rfl

theorem rsBatches (s : ContractState) (sender now reportId : Nat) (r : FakeReport)
    (ns : ReportStatus) :
    (resolveSharedState s sender now reportId r ns).batches =
      upd s.batches r.tokenId
        ({ s.batches r.tokenId with
            openReports := if 0 < (s.batches r.tokenId).openReports then
                (s.batches r.tokenId).openReports - 1
              else (s.batches r.tokenId).openReports,
            pendingSevereReports :=
              if r.severity = 3 ∧ 0 < (s.batches r.tokenId).pendingSevereReports then
                (s.batches r.tokenId).pendingSevereReports - 1
              else (s.batches r.tokenId).pendingSevereReports }) := rfl

theorem rcPayout (s : ContractState) (sender now reportId : Nat) (r : FakeReport) :
    (resolveConfirmedState s sender now reportId r).2 =
      r.stakeAmount + min (s.baseRewardWei * r.severity) s.bountyPoolWei := rfl

theorem rcPool (s : ContractState) (sender now reportId : Nat) (r : FakeReport) :
    (resolveConfirmedState s sender now reportId r).1.bountyPoolWei =
      s.bountyPoolWei - min (s.baseRewardWei * r.severity) s.bountyPoolWei := by
  unfold resolveConfirmedState
  dsimp only
  rw [setHighRisk_pool]
  rfl

theorem rcNullifiers (s : ContractState) (sender now reportId : Nat) (r : FakeReport) :
    (resolveConfirmedState s sender now reportId r).1.identityNullifierUsed =
      s.identityNullifierUsed := by
  unfold resolveConfirmedState
  dsimp only
  rw [setHighRisk_nullifiers]
  rfl

theorem rcCounter (s : ContractState) (sender now reportId : Nat) (r : FakeReport) :
    (resolveConfirmedState s sender now reportId r).1.reportIdCounter =
      s.reportIdCounter := by
  unfold resolveConfirmedState
  dsimp only
  rw [setHighRisk_reportIdCounter]
  rfl

theorem rcMaxOpen (s : ContractState) (sender now reportId : Nat) (r : FakeReport) :
    (resolveConfirmedState s sender now reportId r).1.maxOpenReportsPerReporter =
      s.maxOpenReportsPerReporter := by
  unfold resolveConfirmedState
  dsimp only
  rw [setHighRisk_maxOpen]
  rfl

theorem rcReports (s : ContractState) (sender now reportId : Nat) (r : FakeReport) :
    (resolveConfirmedState s sender now reportId r).1.reports =
      upd s.reports reportId (some
        ({ r with resolver := sender, resolvedAt := now,
                  status := ReportStatus.confirmedFake })) := by
  unfold resolveConfirmedState
  dsimp only
  rw [setHighRisk_reports]
  rfl

theorem rcProfileSelf (s : ContractState) (sender now reportId : Nat) (r : FakeReport) :
    (resolveConfirmedState s sender now reportId r).1.reporterProfiles r.reporter =
      ({ s.reporterProfiles r.reporter with
          openReports := if 0 < (s.reporterProfiles r.reporter).openReports then
              (s.reporterProfiles r.reporter).openReports - 1
            else (s.reporterProfiles r.reporter).openReports,
          reportsConfirmed := (s.reporterProfiles r.reporter).reportsConfirmed + 1,
          reputation := (s.reporterProfiles r.reporter).reputation
            + ((10 + r.severity * 4 : Nat) : Int) }) := by
  unfold resolveConfirmedState
  dsimp only
  rw [setHighRisk_reporterProfiles]
  dsimp only
  rw [rsProfiles]
  simp [upd_apply]

theorem rcProfilesOther (s : ContractState) (sender now reportId : Nat) (r : FakeReport)
    (x : Nat) (hx : x ≠ r.reporter) :
    (resolveConfirmedState s sender now reportId r).1.reporterProfiles x =
      s.reporterProfiles x := by
  unfold resolveConfirmedState
  dsimp only
  rw [setHighRisk_reporterProfiles]
  dsimp only
  rw [rsProfiles]
  simp [upd_apply, hx]

theorem rcQuarSelf (s : ContractState) (sender now reportId : Nat) (r : FakeReport) :
    ((resolveConfirmedState s sender now reportId r).1.batches r.tokenId).quarantined =
      true := by
  unfold resolveConfirmedState
  dsimp only
  rw [setHighRisk_quarantined]
  simp [upd_apply]

theorem rcFlagSelf (s : ContractState) (sender now reportId : Nat) (r : FakeReport) :
    ((resolveConfirmedState s sender now reportId r).1.batches r.tokenId).flaggedHighRisk =
      true := by
  unfold resolveConfirmedState
  dsimp only
  rw [setHighRisk_flag]
  simp

theorem rcBatchesOther (s : ContractState) (sender now reportId : Nat) (r : FakeReport)
    (u : Nat) (hu : u ≠ r.tokenId) :
    (resolveConfirmedState s sender now reportId r).1.batches u = s.batches u := by
  unfold resolveConfirmedState
  dsimp only
  rw [setHighRisk_batches_other _ _ _ _ hu]
  dsimp only
  rw [rsBatches]
  simp [upd_apply, hu]

theorem rrPayout (s : ContractState) (sender now reportId : Nat) (r : FakeReport) :
    (resolveRejectedState s sender now reportId r).2 =
      r.stakeAmount - r.stakeAmount * s.falseReportSlashBps / 10000 := rfl

theorem rrPool (s : ContractState) (sender now reportId : Nat) (r : FakeReport) :
    (resolveRejectedState s sender now reportId r).1.bountyPoolWei =
      s.bountyPoolWei + r.stakeAmount * s.falseReportSlashBps / 10000 := by
  unfold resolveRejectedState
  dsimp only
  split_ifs <;> simp [setHighRisk_pool] <;> rw [rsPool]

theorem rrNullifiers (s : ContractState) (sender now reportId : Nat) (r : FakeReport) :
    (resolveRejectedState s sender now reportId r).1.identityNullifierUsed =
      s.identityNullifierUsed := by
  unfold resolveRejectedState
  dsimp only
  split_ifs <;> simp [setHighRisk_nullifiers] <;> rw [rsNullifiers]

theorem rrCounter (s : ContractState) (sender now reportId : Nat) (r : FakeReport) :
    (resolveRejectedState s sender now reportId r).1.reportIdCounter =
      s.reportIdCounter := by
  unfold resolveRejectedState
  dsimp only
  split_ifs <;> simp [setHighRisk_reportIdCounter] <;> rw [rsCounter]

theorem rrMaxOpen (s : ContractState) (sender now reportId : Nat) (r : FakeReport) :
    (resolveRejectedState s sender now reportId r).1.maxOpenReportsPerReporter =
      s.maxOpenReportsPerReporter := by
  unfold resolveRejectedState
  dsimp only
  split_ifs <;> simp [setHighRisk_maxOpen] <;> rw [rsMaxOpen]

theorem rrReports (s : ContractState) (sender now reportId : Nat) (r : FakeReport) :
    (resolveRejectedState s sender now reportId r).1.reports =
      upd s.reports reportId (some
        ({ r with resolver := sender, resolvedAt := now,
                  status := ReportStatus.rejectedFalse })) := by
  unfold resolveRejectedState
  dsimp only
  split_ifs <;> simp [setHighRisk_reports] <;> rw [rsReports]

theorem rrProfileSelf (s : ContractState) (sender now reportId : Nat) (r : FakeReport) :
    (resolveRejectedState s sender now reportId r).1.reporterProfiles r.reporter =
      ({ s.reporterProfiles r.reporter with
          openReports := if 0 < (s.reporterProfiles r.reporter).openReports then
              (s.reporterProfiles r.reporter).openReports - 1
            else (s.reporterProfiles r.reporter).openReports,
          reportsRejected := (s.reporterProfiles r.reporter).reportsRejected + 1,
          reputation := (s.reporterProfiles r.reporter).reputation
            - ((12 + r.severity * 6 : Nat) : Int),
          blocked := if (s.reporterProfiles r.reporter).reputation
              - ((12 + r.severity * 6 : Nat) : Int) ≤ -100 then true
            else (s.reporterProfiles r.reporter).blocked }) := by
  unfold resolveRejectedState
  dsimp only
  split_ifs <;>
    simp_all [setHighRisk_reporterProfiles, rsProfiles, upd_apply] <;> omega

theorem rrProfilesOther (s : ContractState) (sender now reportId : Nat) (r : FakeReport)
    (x : Nat) (hx : x ≠ r.reporter) :
    (resolveRejectedState s sender now reportId r).1.reporterProfiles x =
      s.reporterProfiles x := by
  unfold resolveRejectedState
  dsimp only
  split_ifs <;>
    simp_all [setHighRisk_reporterProfiles, rsProfiles, upd_apply, hx]

theorem rrBatchesOther (s : ContractState) (sender now reportId : Nat) (r : FakeReport)
    (u : Nat) (hu : u ≠ r.tokenId) :
    (resolveRejectedState s sender now reportId r).1.batches u = s.batches u := by
  unfold resolveRejectedState
  dsimp only
  split_ifs <;> (try rw [setHighRisk_batches_other _ _ _ _ hu]) <;>
    simp [rsBatches, upd_apply, hu]

theorem rrQuarSelf (s : ContractState) (sender now reportId : Nat) (r : FakeReport) :
    ((resolveRejectedState s sender now reportId r).1.batches r.tokenId).quarantined =
      (s.batches r.tokenId).quarantined := by
  unfold resolveRejectedState
  dsimp only
  split_ifs <;>
    simp_all [setHighRisk_quarantined, setHighRisk_reporterProfiles,
      rsBatches, rsProfiles, upd_apply]

theorem rrPendSelf (s : ContractState) (sender now reportId : Nat) (r : FakeReport) :
    ((resolveRejectedState s sender now reportId r).1.batches
        r.tokenId).pendingSevereReports =
      (if r.severity = 3 ∧ 0 < (s.batches r.tokenId).pendingSevereReports then
        (s.batches r.tokenId).pendingSevereReports - 1
      else (s.batches r.tokenId).pendingSevereReports) := by
  unfold resolveRejectedState
  dsimp only
  split_ifs <;>
    simp_all [setHighRisk_pendingSevere, setHighRisk_reporterProfiles,
      rsBatches, rsProfiles, upd_apply]

theorem rrFlagKeep (s : ContractState) (sender now reportId : Nat) (r : FakeReport)
    (hrisk : ¬((s.batches r.tokenId).quarantined = false ∧
      (if r.severity = 3 ∧ 0 < (s.batches r.tokenId).pendingSevereReports then
        (s.batches r.tokenId).pendingSevereReports - 1
      else (s.batches r.tokenId).pendingSevereReports) = 0)) (u : Nat) :
    ((resolveRejectedState s sender now reportId r).1.batches u).flaggedHighRisk =
      (s.batches u).flaggedHighRisk := by
  unfold resolveRejectedState
  dsimp only
  split_ifs with h1 <;>
    first
      | (exfalso
         apply hrisk
         simpa [rsBatches, upd_apply] using h1)
      | (by_cases hu : u = r.tokenId <;> simp_all [rsBatches, upd_apply])

/-! Reachability induction. -/

theorem steps_induction {P : ContractState → Prop}
    (pres : ∀ a s s', stepTo a s s' → P s → P s') :
    ∀ {s s' : ContractState}, Steps s s' → P s → P s' := by
  intro s s' h
  induction h with
  | refl => exact id
  | tail _ hstep ih =>
      intro hp
      rcases hstep with ⟨a, ha⟩
      exact pres _ _ _ ha (ih hp)

theorem reachable_invariant {P : ContractState → Prop}
    (hinit : ∀ d, P (initialState d))
    (pres : ∀ a s s', stepTo a s s' → P s → P s') :
    ∀ {s : ContractState}, Reachable s → P s := by
  rintro s ⟨d, hsteps⟩
  exact steps_induction pres hsteps (hinit d)

/-! The identity-nullifier set is append-only: no operation ever clears a
consumed nullifier. -/

theorem stepTo_nullifier_mono (a : Act) (s s' : ContractState) (h : stepTo a s s')
    (n : Nat) (hn : s.identityNullifierUsed n = true) :
    s'.identityNullifierUsed n = true := by
  cases a with
  | mint sender now dest mfgDate expiryTimestamp sigPresent recoveredSigner =>
      obtain ⟨-, -, rfl⟩ := mintBatch_ok h
      simpa [mintOkState] using hn
  | attest sender now tokenId reportHash passed confidenceBps =>
      obtain ⟨-, -, -, -, -, rfl⟩ := submitLabAttestation_ok h
      rw [attestOk_nullifiers]
      exact hn
  | quarantine sender tokenId quarantined reasonCode =>
      obtain ⟨-, -, -, rfl⟩ := setBatchQuarantine_ok h
      rw [quarOk_nullifiers]
      exact hn
  | report sender now msgValue tokenId nullifier evidenceURI reason severity =>
      obtain ⟨rid, hok⟩ := h
      obtain ⟨-, -, -, -, -, -, -, -, -, hout⟩ := reportSuspiciousBatch_ok hok
      injection hout with hs _
      subst hs
      rw [submitOk_nullifiers]
      simp [upd_apply, hn]
  | resolve sender now reportId confirmedFake transferOk =>
      obtain ⟨payout, hok⟩ := h
      obtain ⟨-, -, r, -, -, -, hout, -⟩ := resolveReport_ok hok
      cases confirmedFake with
      | true =>
          rw [if_pos rfl] at hout
          have hs := congrArg Prod.fst hout
          dsimp only at hs
          rw [hs, rcNullifiers]
          exact hn
      | false =>
          rw [if_neg (by simp)] at hout
          have hs := congrArg Prod.fst hout
          dsimp only at hs
          rw [hs, rrNullifiers]
          exact hn
  | policy sender p1 p2 p3 p4 p5 p6 p7 p8 =>
      obtain ⟨-, -, -, -, -, -, rfl⟩ := setPolicyParameters_ok h
      simpa using hn
  | fund sender msgValue =>
      obtain ⟨-, -, rfl⟩ := fundBountyPool_ok h
      simpa using hn
  | withdraw sender dest amount transferOk =>
      obtain ⟨-, -, -, -, rfl⟩ := withdrawBountyPool_ok h
      simpa using hn
  | recv sender msgValue =>
      subst h
      simpa [receiveEther] using hn
  | pauseAct sender =>
      obtain ⟨-, -, rfl⟩ := pauseOp_ok h
      simpa using hn
  | unpauseAct sender =>
      obtain ⟨-, -, rfl⟩ := unpauseOp_ok h
      simpa using hn
  | setBlocked sender reporter blocked =>
      obtain ⟨-, rfl⟩ := setReporterBlocked_ok h
      simpa using hn
  | roleChange reg man lab adm manAct manLic labAct =>
      subst h
      simpa [withRoles] using hn

theorem steps_nullifier_mono {s s' : ContractState} (h : Steps s s') (n : Nat)
    (hn : s.identityNullifierUsed n = true) : s'.identityNullifierUsed n = true :=
  steps_induction (fun a t t' ht hp => stepTo_nullifier_mono a t t' ht n hp) h hn

/-- A submit call presenting an already-consumed nullifier can never
succeed. -/
theorem submit_fails_on_used_nullifier (s : ContractState)
    (sender now msgValue tokenId nullifier : Nat) (evidenceURI reason : String)
    (severity : Nat) (hused : s.identityNullifierUsed nullifier = true) :
    isOk (reportSuspiciousBatch s sender now msgValue tokenId nullifier
      evidenceURI reason severity) = false := by
  cases hok : reportSuspiciousBatch s sender now msgValue tokenId nullifier
      evidenceURI reason severity with
  | error e => rfl
  | ok out =>
      obtain ⟨-, -, -, hfree, -⟩ := reportSuspiciousBatch_ok hok
      rw [hused] at hfree
      exact absurd hfree (by simp)

/-! The `blocked` bit is monotone toward `true` under every transaction
except an explicit regulator `setReporterBlocked(rep, false)`. -/

theorem stepTo_blocked_mono (a : Act) (s s' : ContractState) (rep : Nat)
    (h : stepTo a s s') (hnb : Act.unblocksReporter a rep = false)
    (hb : (s.reporterProfiles rep).blocked = true) :
    (s'.reporterProfiles rep).blocked = true := by
  cases a with
  | mint sender now dest mfgDate expiryTimestamp sigPresent recoveredSigner =>
      obtain ⟨-, -, rfl⟩ := mintBatch_ok h
      simpa [mintOkState] using hb
  | attest sender now tokenId reportHash passed confidenceBps =>
      obtain ⟨-, -, -, -, -, rfl⟩ := submitLabAttestation_ok h
      rw [attestOk_profiles]
      exact hb
  | quarantine sender tokenId quarantined reasonCode =>
      obtain ⟨-, -, -, rfl⟩ := setBatchQuarantine_ok h
      rw [quarOk_profiles]
      exact hb
  | report sender now msgValue tokenId nullifier evidenceURI reason severity =>
      obtain ⟨rid, hok⟩ := h
      obtain ⟨-, -, -, -, -, -, -, -, -, hout⟩ := reportSuspiciousBatch_ok hok
      injection hout with hs _
      subst hs
      by_cases hx : rep = sender
      · subst hx
        rw [submitOk_profiles_self]
        exact hb
      · rw [submitOk_profiles_other _ _ _ _ _ _ _ _ _ _ hx]
        exact hb
  | resolve sender now reportId confirmedFake transferOk =>
      obtain ⟨payout, hok⟩ := h
      obtain ⟨-, -, r, -, -, -, hout, -⟩ := resolveReport_ok hok
      cases confirmedFake with
      | true =>
          rw [if_pos rfl] at hout
          have hs := congrArg Prod.fst hout
          dsimp only at hs
          rw [hs]
          by_cases hx : rep = r.reporter
          · subst hx
            rw [rcProfileSelf]
            exact hb
          · rw [rcProfilesOther _ _ _ _ _ _ hx]
            exact hb
      | false =>
          rw [if_neg (by simp)] at hout
          have hs := congrArg Prod.fst hout
          dsimp only at hs
          rw [hs]
          by_cases hx : rep = r.reporter
          · subst hx
            rw [rrProfileSelf]
            dsimp only
            split <;> simp [hb]
          · rw [rrProfilesOther _ _ _ _ _ _ hx]
            exact hb
  | policy sender p1 p2 p3 p4 p5 p6 p7 p8 =>
      obtain ⟨-, -, -, -, -, -, rfl⟩ := setPolicyParameters_ok h
      simpa using hb
  | fund sender msgValue =>
      obtain ⟨-, -, rfl⟩ := fundBountyPool_ok h
      simpa using hb
  | withdraw sender dest amount transferOk =>
      obtain ⟨-, -, -, -, rfl⟩ := withdrawBountyPool_ok h
      simpa using hb
  | recv sender msgValue =>
      subst h
      simpa [receiveEther] using hb
  | pauseAct sender =>
      obtain ⟨-, -, rfl⟩ := pauseOp_ok h
      simpa using hb
  | unpauseAct sender =>
      obtain ⟨-, -, rfl⟩ := unpauseOp_ok h
      simpa using hb
  | setBlocked sender reporter blocked =>
      obtain ⟨-, rfl⟩ := setReporterBlocked_ok h
      by_cases hx : rep = reporter
      · subst hx
        cases blocked with
        | true => simp [upd_apply]
        | false =>
            exfalso
            unfold Act.unblocksReporter at hnb
            simp at hnb
      · simpa [upd_apply, hx] using hb
  | roleChange reg man lab adm manAct manLic labAct =>
      subst h
      simpa [withRoles] using hb

/-- A blocked reporter can never submit a report. -/
theorem submit_fails_when_blocked (s : ContractState)
    (sender now msgValue tokenId nullifier : Nat) (evidenceURI reason : String)
    (severity : Nat) (hb : (s.reporterProfiles sender).blocked = true) :
    isOk (reportSuspiciousBatch s sender now msgValue tokenId nullifier
      evidenceURI reason severity) = false := by
  cases hok : reportSuspiciousBatch s sender now msgValue tokenId nullifier
      evidenceURI reason severity with
  | error e => rfl
  | ok out =>
      obtain ⟨-, -, -, -, -, hblocked, -⟩ := reportSuspiciousBatch_ok hok
      rw [hb] at hblocked
      exact absurd hblocked (by simp)

/-! The per-reporter open-report bound is preserved by every transaction
except `setPolicyParameters` (which can lower the maximum under existing
open counts). -/

theorem stepTo_open_bound (a : Act) (s s' : ContractState) (h : stepTo a s s')
    (hpol : Act.isPolicyAct a = false) (hinv : OpenReportsBounded s) :
    OpenReportsBounded s' := by
  intro x
  cases a with
  | mint sender now dest mfgDate expiryTimestamp sigPresent recoveredSigner =>
      obtain ⟨-, -, rfl⟩ := mintBatch_ok h
      simpa [mintOkState] using hinv x
  | attest sender now tokenId reportHash passed confidenceBps =>
      obtain ⟨-, -, -, -, -, rfl⟩ := submitLabAttestation_ok h
      rw [attestOk_profiles, attestOk_maxOpen]
      exact hinv x
  | quarantine sender tokenId quarantined reasonCode =>
      obtain ⟨-, -, -, rfl⟩ := setBatchQuarantine_ok h
      rw [quarOk_profiles, quarOk_maxOpen]
      exact hinv x
  | report sender now msgValue tokenId nullifier evidenceURI reason severity =>
      obtain ⟨rid, hok⟩ := h
      obtain ⟨-, -, -, -, -, -, -, hlt, -, hout⟩ := reportSuspiciousBatch_ok hok
      injection hout with hs _
      subst hs
      rw [submitOk_maxOpen]
      by_cases hx : x = sender
      · subst hx
        rw [submitOk_profiles_self]
        dsimp only
        omega
      · rw [submitOk_profiles_other _ _ _ _ _ _ _ _ _ _ hx]
        exact hinv x
  | resolve sender now reportId confirmedFake transferOk =>
      obtain ⟨payout, hok⟩ := h
      obtain ⟨-, -, r, -, -, -, hout, -⟩ := resolveReport_ok hok
      have hb := hinv x
      cases confirmedFake with
      | true =>
          rw [if_pos rfl] at hout
          have hs := congrArg Prod.fst hout
          dsimp only at hs
          rw [hs, rcMaxOpen]
          by_cases hx : x = r.reporter
          · subst hx
            rw [rcProfileSelf]
            dsimp only
            split <;> omega
          · rw [rcProfilesOther _ _ _ _ _ _ hx]
            exact hb
      | false =>
          rw [if_neg (by simp)] at hout
          have hs := congrArg Prod.fst hout
          dsimp only at hs
          rw [hs, rrMaxOpen]
          by_cases hx : x = r.reporter
          · subst hx
            rw [rrProfileSelf]
            dsimp only
            split <;> omega
          · rw [rrProfilesOther _ _ _ _ _ _ hx]
            exact hb
  | policy sender p1 p2 p3 p4 p5 p6 p7 p8 =>
      exact absurd hpol (by simp [Act.isPolicyAct])
  | fund sender msgValue =>
      obtain ⟨-, -, rfl⟩ := fundBountyPool_ok h
      simpa using hinv x
  | withdraw sender dest amount transferOk =>
      obtain ⟨-, -, -, -, rfl⟩ := withdrawBountyPool_ok h
      simpa using hinv x
  | recv sender msgValue =>
      subst h
      simpa [receiveEther] using hinv x
  | pauseAct sender =>
      obtain ⟨-, -, rfl⟩ := pauseOp_ok h
      simpa using hinv x
  | unpauseAct sender =>
      obtain ⟨-, -, rfl⟩ := unpauseOp_ok h
      simpa using hinv x
  | setBlocked sender reporter blocked =>
      obtain ⟨-, rfl⟩ := setReporterBlocked_ok h
      by_cases hx : x = reporter
      · simpa [upd_apply, hx] using hinv reporter
      · simpa [upd_apply, hx] using hinv x
  | roleChange reg man lab adm manAct manLic labAct =>
      subst h
      simpa [withRoles] using hinv x

/-! The high-risk flag always covers quarantine and pending-severe risk. -/

theorem stepTo_core_risk (a : Act) (s s' : ContractState) (h : stepTo a s s')
    (hinv : HighRiskCoversCoreRisk s) : HighRiskCoversCoreRisk s' := by
  intro t hrisk
  simp only [CoreRisk] at hrisk
  cases a with
  | mint sender now dest mfgDate expiryTimestamp sigPresent recoveredSigner =>
      obtain ⟨-, -, rfl⟩ := mintBatch_ok h
      by_cases ht : t = s.tokenIdCounter
      · subst ht
        simp [mintOkState, upd_apply] at hrisk
      · simp only [mintOkState] at hrisk ⊢
        rw [upd_ne _ _ _ ht] at hrisk ⊢
        exact hinv t (by simpa [CoreRisk] using hrisk)
  | attest sender now tokenId reportHash passed confidenceBps =>
      obtain ⟨-, -, -, -, -, rfl⟩ := submitLabAttestation_ok h
      rw [attestOk_quar] at hrisk
      rw [attestOk_pend] at hrisk
      exact attestOk_flag_mono _ _ _ _ _ _ _ _ (hinv t (by simpa [CoreRisk] using hrisk))
  | quarantine sender tokenId quarantined reasonCode =>
      obtain ⟨-, -, -, rfl⟩ := setBatchQuarantine_ok h
      rw [quarOk_quar] at hrisk
      rw [quarOk_pend] at hrisk
      by_cases ht : t = tokenId
      · subst ht
        rw [if_pos rfl] at hrisk
        cases quarantined with
        | true => exact quarOk_flag_true s t rfl t rfl
        | false =>
            have hpend : (s.batches t).pendingSevereReports ≠ 0 := by
              rcases hrisk with hq | hp
              · exact absurd hq (by simp)
              · omega
            rw [quarOk_flag_keep s t t hpend, if_pos rfl]
            exact hinv t (Or.inr (by omega))
      · rw [if_neg ht] at hrisk
        rw [quarOk_flag_other _ _ _ _ ht]
        exact hinv t (by simpa [CoreRisk] using hrisk)
  | report sender now msgValue tokenId nullifier evidenceURI reason severity =>
      obtain ⟨rid, hok⟩ := h
      obtain ⟨-, -, -, -, -, -, -, -, -, hout⟩ := reportSuspiciousBatch_ok hok
      injection hout with hs _
      subst hs
      rw [submitOk_quar] at hrisk
      rw [submitOk_pend] at hrisk
      by_cases hsev : severity = 3
      · by_cases ht : t = tokenId
        · subst ht
          exact submitOk_flag3 _ _ _ _ _ _ _ _ _ hsev
        · rw [submitOk_flag_other _ _ _ _ _ _ _ _ _ _ ht]
          rw [if_neg (by tauto)] at hrisk
          exact hinv t (by simpa [CoreRisk] using hrisk)
      · rw [submitOk_flag_not3 _ _ _ _ _ _ _ _ _ hsev]
        rw [if_neg (by tauto)] at hrisk
        exact hinv t (by simpa [CoreRisk] using hrisk)
  | resolve sender now reportId confirmedFake transferOk =>
      obtain ⟨payout, hok⟩ := h
      obtain ⟨-, -, r, -, -, -, hout, -⟩ := resolveReport_ok hok
      cases confirmedFake with
      | true =>
          rw [if_pos rfl] at hout
          have hs := congrArg Prod.fst hout
          dsimp only at hs
          rw [hs] at hrisk ⊢
          by_cases ht : t = r.tokenId
          · subst ht
            exact rcFlagSelf s sender now reportId r
          · rw [rcBatchesOther _ _ _ _ _ _ ht] at hrisk ⊢
            exact hinv t (by simpa [CoreRisk] using hrisk)
      | false =>
          rw [if_neg (by simp)] at hout
          have hs := congrArg Prod.fst hout
          dsimp only at hs
          rw [hs] at hrisk ⊢
          by_cases ht : t = r.tokenId
          · subst ht
            rw [rrQuarSelf] at hrisk
            rw [rrPendSelf] at hrisk
            have hkeep : ¬((s.batches r.tokenId).quarantined = false ∧
                (if r.severity = 3 ∧ 0 < (s.batches r.tokenId).pendingSevereReports then
                  (s.batches r.tokenId).pendingSevereReports - 1
                else (s.batches r.tokenId).pendingSevereReports) = 0) := by
              rintro ⟨hq, hp⟩
              rcases hrisk with hq2 | hp2
              · exact absurd hq2 (by simp [hq])
              · omega
            rw [rrFlagKeep _ _ _ _ _ hkeep]
            refine hinv r.tokenId ?_
            rcases hrisk with hq2 | hp2
            · exact Or.inl hq2
            · refine Or.inr ?_
              by_cases h3 : r.severity = 3 ∧ 0 < (s.batches r.tokenId).pendingSevereReports
              · rw [if_pos h3] at hp2
                omega
              · rw [if_neg h3] at hp2
                omega
          · rw [rrBatchesOther _ _ _ _ _ _ ht] at hrisk ⊢
            exact hinv t (by simpa [CoreRisk] using hrisk)
  | policy sender p1 p2 p3 p4 p5 p6 p7 p8 =>
      obtain ⟨-, -, -, -, -, -, rfl⟩ := setPolicyParameters_ok h
      exact hinv t (by simpa [CoreRisk] using hrisk)
  | fund sender msgValue =>
      obtain ⟨-, -, rfl⟩ := fundBountyPool_ok h
      exact hinv t (by simpa [CoreRisk] using hrisk)
  | withdraw sender dest amount transferOk =>
      obtain ⟨-, -, -, -, rfl⟩ := withdrawBountyPool_ok h
      exact hinv t (by simpa [CoreRisk] using hrisk)
  | recv sender msgValue =>
      subst h
      exact hinv t (by simpa [CoreRisk, receiveEther] using hrisk)
  | pauseAct sender =>
      obtain ⟨-, -, rfl⟩ := pauseOp_ok h
      exact hinv t (by simpa [CoreRisk] using hrisk)
  | unpauseAct sender =>
      obtain ⟨-, -, rfl⟩ := unpauseOp_ok h
      exact hinv t (by simpa [CoreRisk] using hrisk)
  | setBlocked sender reporter blocked =>
      obtain ⟨-, rfl⟩ := setReporterBlocked_ok h
      exact hinv t (by simpa [CoreRisk] using hrisk)
  | roleChange reg man lab adm manAct manLic labAct =>
      subst h
      exact hinv t (by simpa [CoreRisk, withRoles] using hrisk)

theorem reachable_core_risk {s : ContractState} (hs : Reachable s) :
    HighRiskCoversCoreRisk s := by
  refine reachable_invariant (fun d => ?_) stepTo_core_risk hs
  intro t hrisk
  simp only [CoreRisk, initialState, Batch.empty] at hrisk
  rcases hrisk with hq | hp
  · exact absurd hq (by simp)
  · exact absurd hp (by simp)

/-! Report ids are allocated from the monotone counter and never reused, so
a settled report stays settled forever. -/

theorem stepTo_ids_below (a : Act) (s s' : ContractState) (h : stepTo a s s')
    (hinv : IdsBelowCounter s) : IdsBelowCounter s' := by
  intro id r0 hr
  cases a with
  | mint sender now dest mfgDate expiryTimestamp sigPresent recoveredSigner =>
      obtain ⟨-, -, rfl⟩ := mintBatch_ok h
      simp only [mintOkState] at hr ⊢
      exact hinv id r0 hr
  | attest sender now tokenId reportHash passed confidenceBps =>
      obtain ⟨-, -, -, -, -, rfl⟩ := submitLabAttestation_ok h
      rw [attestOk_reports] at hr
      rw [attestOk_counter]
      exact hinv id r0 hr
  | quarantine sender tokenId quarantined reasonCode =>
      obtain ⟨-, -, -, rfl⟩ := setBatchQuarantine_ok h
      rw [quarOk_reports] at hr
      rw [quarOk_counter]
      exact hinv id r0 hr
  | report sender now msgValue tokenId nullifier evidenceURI reason severity =>
      obtain ⟨rid, hok⟩ := h
      obtain ⟨-, -, -, -, -, -, -, -, -, hout⟩ := reportSuspiciousBatch_ok hok
      injection hout with hs _
      subst hs
      rw [submitOk_reports] at hr
      rw [submitOk_counter]
      by_cases hid : id = s.reportIdCounter
      · omega
      · rw [upd_ne _ _ _ hid] at hr
        have := hinv id r0 hr
        omega
  | resolve sender now reportId confirmedFake transferOk =>
      obtain ⟨payout, hok⟩ := h
      obtain ⟨-, -, r, hsome, -, -, hout, -⟩ := resolveReport_ok hok
      cases confirmedFake with
      | true =>
          rw [if_pos rfl] at hout
          have hs := congrArg Prod.fst hout
          dsimp only at hs
          rw [hs] at hr
          rw [hs, rcCounter]
          rw [rcReports] at hr
          by_cases hid : id = reportId
          · subst hid
            exact hinv id r hsome
          · rw [upd_ne _ _ _ hid] at hr
            exact hinv id r0 hr
      | false =>
          rw [if_neg (by simp)] at hout
          have hs := congrArg Prod.fst hout
          dsimp only at hs
          rw [hs] at hr
          rw [hs, rrCounter]
          rw [rrReports] at hr
          by_cases hid : id = reportId
          · subst hid
            exact hinv id r hsome
          · rw [upd_ne _ _ _ hid] at hr
            exact hinv id r0 hr
  | policy sender p1 p2 p3 p4 p5 p6 p7 p8 =>
      obtain ⟨-, -, -, -, -, -, rfl⟩ := setPolicyParameters_ok h
      exact hinv id r0 hr
  | fund sender msgValue =>
      obtain ⟨-, -, rfl⟩ := fundBountyPool_ok h
      exact hinv id r0 hr
  | withdraw sender dest amount transferOk =>
      obtain ⟨-, -, -, -, rfl⟩ := withdrawBountyPool_ok h
      exact hinv id r0 hr
  | recv sender msgValue =>
      subst h
      exact hinv id r0 hr
  | pauseAct sender =>
      obtain ⟨-, -, rfl⟩ := pauseOp_ok h
      exact hinv id r0 hr
  | unpauseAct sender =>
      obtain ⟨-, -, rfl⟩ := unpauseOp_ok h
      exact hinv id r0 hr
  | setBlocked sender reporter blocked =>
      obtain ⟨-, rfl⟩ := setReporterBlocked_ok h
      exact hinv id r0 hr
  | roleChange reg man lab adm manAct manLic labAct =>
      subst h
      exact hinv id r0 hr

theorem reachable_ids_below {s : ContractState} (hs : Reachable s) :
    IdsBelowCounter s := by
  refine reachable_invariant (fun d => ?_) stepTo_ids_below hs
  intro id r hr
  exact absurd hr (by simp [initialState])

theorem stepTo_settled (a : Act) (s s' : ContractState) (reportId : Nat)
    (h : stepTo a s s') (hids : IdsBelowCounter s)
    (hset : ReportSettled reportId s) : ReportSettled reportId s' := by
  obtain ⟨r0, hr0, hrep0, hst0⟩ := hset
  cases a with
  | mint sender now dest mfgDate expiryTimestamp sigPresent recoveredSigner =>
      obtain ⟨-, -, rfl⟩ := mintBatch_ok h
      exact ⟨r0, hr0, hrep0, hst0⟩
  | attest sender now tokenId reportHash passed confidenceBps =>
      obtain ⟨-, -, -, -, -, rfl⟩ := submitLabAttestation_ok h
      exact ⟨r0, by rw [attestOk_reports]; exact hr0, hrep0, hst0⟩
  | quarantine sender tokenId quarantined reasonCode =>
      obtain ⟨-, -, -, rfl⟩ := setBatchQuarantine_ok h
      exact ⟨r0, by rw [quarOk_reports]; exact hr0, hrep0, hst0⟩
  | report sender now msgValue tokenId nullifier evidenceURI reason severity =>
      obtain ⟨rid, hok⟩ := h
      obtain ⟨-, -, -, -, -, -, -, -, -, hout⟩ := reportSuspiciousBatch_ok hok
      injection hout with hs _
      subst hs
      have hlt := hids reportId r0 hr0
      refine ⟨r0, ?_, hrep0, hst0⟩
      rw [submitOk_reports]
      rw [upd_ne _ _ _ (by omega)]
      exact hr0
  | resolve sender now reportId2 confirmedFake transferOk =>
      obtain ⟨payout, hok⟩ := h
      obtain ⟨-, -, r, hsome, hrep, hpend, hout, -⟩ := resolveReport_ok hok
      by_cases hid : reportId = reportId2
      · exfalso
        subst hid
        rw [hr0] at hsome
        injection hsome with he
        exact hst0 (by rw [he]; exact hpend)
      · cases confirmedFake with
        | true =>
            rw [if_pos rfl] at hout
            have hs := congrArg Prod.fst hout
            dsimp only at hs
            rw [hs]
            refine ⟨r0, ?_, hrep0, hst0⟩
            rw [rcReports, upd_ne _ _ _ hid]
            exact hr0
        | false =>
            rw [if_neg (by simp)] at hout
            have hs := congrArg Prod.fst hout
            dsimp only at hs
            rw [hs]
            refine ⟨r0, ?_, hrep0, hst0⟩
            rw [rrReports, upd_ne _ _ _ hid]
            exact hr0
  | policy sender p1 p2 p3 p4 p5 p6 p7 p8 =>
      obtain ⟨-, -, -, -, -, -, rfl⟩ := setPolicyParameters_ok h
      exact ⟨r0, hr0, hrep0, hst0⟩
  | fund sender msgValue =>
      obtain ⟨-, -, rfl⟩ := fundBountyPool_ok h
      exact ⟨r0, hr0, hrep0, hst0⟩
  | withdraw sender dest amount transferOk =>
      obtain ⟨-, -, -, -, rfl⟩ := withdrawBountyPool_ok h
      exact ⟨r0, hr0, hrep0, hst0⟩
  | recv sender msgValue =>
      subst h
      exact ⟨r0, hr0, hrep0, hst0⟩
  | pauseAct sender =>
      obtain ⟨-, -, rfl⟩ := pauseOp_ok h
      exact ⟨r0, hr0, hrep0, hst0⟩
  | unpauseAct sender =>
      obtain ⟨-, -, rfl⟩ := unpauseOp_ok h
      exact ⟨r0, hr0, hrep0, hst0⟩
  | setBlocked sender reporter blocked =>
      obtain ⟨-, rfl⟩ := setReporterBlocked_ok h
      exact ⟨r0, hr0, hrep0, hst0⟩
  | roleChange reg man lab adm manAct manLic labAct =>
      subst h
      exact ⟨r0, hr0, hrep0, hst0⟩

theorem steps_settled {s s' : ContractState} (reportId : Nat) (h : Steps s s')
    (hids : IdsBelowCounter s) (hset : ReportSettled reportId s) :
    ReportSettled reportId s' := by
  have := steps_induction
    (P := fun t => IdsBelowCounter t ∧ ReportSettled reportId t)
    (fun a t t' ht hp =>
      ⟨stepTo_ids_below a t t' ht hp.1, stepTo_settled a t t' reportId ht hp.1 hp.2⟩)
    h ⟨hids, hset⟩
  exact this.2

/-- Resolving a settled report always reverts; when the pause and role gates
pass, the revert reason is the state-conflict error `Already resolved`. -/
theorem resolve_fails_when_settled (s : ContractState) (reportId : Nat)
    (hset : ReportSettled reportId s) (sender now : Nat) (c tOk : Bool) :
    (∃ e, resolveReport s sender now reportId c tOk = .error e) ∧
    (s.paused = false → s.regulatorRole sender = true →
      resolveReport s sender now reportId c tOk = .error .alreadyResolved) := by
  obtain ⟨r, hr, hrep, hst⟩ := hset
  constructor
  · by_cases hp : s.paused = true
    · exact ⟨.enforcedPause, by unfold resolveReport; rw [if_pos hp]⟩
    · by_cases hrole : s.regulatorRole sender = false
      · refine ⟨.missingRole, ?_⟩
        unfold resolveReport
        rw [if_neg hp, if_pos hrole]
      · refine ⟨.alreadyResolved, ?_⟩
        unfold resolveReport
        rw [if_neg hp, if_neg hrole, hr]
        dsimp only
        rw [if_neg hrep, if_pos hst]
  · intro hp hrole
    unfold resolveReport
    rw [if_neg (by simp [hp]), if_neg (by simp [hrole]), hr]
    dsimp only
    rw [if_neg hrep, if_pos hst]

/-! Coherence of the swap-remove index is preserved by `setHighRisk`.
All array indexing goes through `List.getD _ _ 0`, matching the Solidity
array reads; a small kit of `getD` lemmas bridges to the library. -/

theorem getD_eq_get (l : List Nat) (i : Nat) (h : i < l.length) : l.getD i 0 = l[i] :=
  List.getD_eq_getElem l 0 h

theorem getD_mem (l : List Nat) (i : Nat) (h : i < l.length) : l.getD i 0 ∈ l := by
  rw [getD_eq_get _ _ h]
  exact List.getElem_mem h

theorem getD_append_left (l1 l2 : List Nat) (i : Nat) (h : i < l1.length) :
    (l1 ++ l2).getD i 0 = l1.getD i 0 := by
  rw [getD_eq_get _ _ (by rw [List.length_append]; omega), getD_eq_get _ _ h]
  exact List.getElem_append_left h

theorem getD_concat_self (l : List Nat) (a : Nat) : (l ++ [a]).getD l.length 0 = a := by
  rw [getD_eq_get _ _ (by rw [List.length_append, List.length_singleton]; omega)]
  exact List.getElem_concat_length _ _ _ rfl _

theorem getD_set (l : List Nat) (i j a : Nat) (hj : j < l.length) :
    (l.set i a).getD j 0 = if i = j then a else l.getD j 0 := by
  rw [getD_eq_get _ _ (by rw [List.length_set]; omega), List.getElem_set]
  by_cases hij : i = j
  · rw [if_pos hij, if_pos hij]
  · rw [if_neg hij, if_neg hij, getD_eq_get _ _ hj]

theorem getD_dropLast (l : List Nat) (j : Nat) (h : j < l.length - 1) :
    l.dropLast.getD j 0 = l.getD j 0 := by
  rw [getD_eq_get _ _ (by rw [List.length_dropLast]; omega), List.getElem_dropLast,
    getD_eq_get _ _ (by omega)]

theorem mem_iff_getD (l : List Nat) (u : Nat) :
    u ∈ l ↔ ∃ j, j < l.length ∧ l.getD j 0 = u := by
  rw [List.mem_iff_getElem]
  constructor
  · rintro ⟨j, hj, he⟩
    exact ⟨j, hj, by rw [getD_eq_get _ _ hj]; exact he⟩
  · rintro ⟨j, hj, he⟩
    exact ⟨j, hj, by rw [← getD_eq_get _ _ hj]; exact he⟩

theorem nodup_iff_getD_inj (l : List Nat) :
    l.Nodup ↔ ∀ i j, i < l.length → j < l.length → l.getD i 0 = l.getD j 0 → i = j := by
  constructor
  · intro h i j hi hj he
    rw [getD_eq_get _ _ hi, getD_eq_get _ _ hj] at he
    exact (h.getElem_inj_iff).mp he
  · intro h
    rw [List.nodup_iff_injective_getElem]
    rintro ⟨i, hi⟩ ⟨j, hj⟩ he
    refine Fin.ext ?_
    refine h i j hi hj ?_
    rw [getD_eq_get _ _ hi, getD_eq_get _ _ hj]
    exact he

set_option maxHeartbeats 2000000 in
theorem setHighRisk_coherent (s : ContractState) (t : Nat) (b : Bool)
    (h : IndexCoherent s) : IndexCoherent (setHighRisk s t b) := by
  obtain ⟨hnd, hiff, hpos, hback⟩ := h
  have hinj := (nodup_iff_getD_inj s.highRiskBatchIds).mp hnd
  unfold setHighRisk
  dsimp only
  split
  · exact ⟨hnd, hiff, hpos, hback⟩
  rename_i hcur
  split
  · -- insert branch: the flag was false, `t` is appended at the end
    rename_i hb
    have hflag : (s.batches t).flaggedHighRisk = false := by
      cases hfb : (s.batches t).flaggedHighRisk
      · rfl
      · rw [hfb, hb] at hcur; exact absurd rfl hcur
    have hmem : t ∉ s.highRiskBatchIds := fun hm => by
      have hft := (hiff t).mpr hm
      rw [hft] at hflag
      exact absurd hflag (by simp)
    subst hb
    refine ⟨?_, ?_, ?_, ?_⟩
    · exact List.nodup_append.mpr ⟨hnd, List.nodup_singleton t, by
        intro x hx hx2
        rw [List.mem_singleton] at hx2
        subst hx2
        exact hmem hx⟩
    · intro u
      dsimp only
      rw [upd_apply]
      by_cases hu : u = t
      · subst hu
        simp [List.mem_append]
      · rw [if_neg hu]
        rw [hiff u]
        simp [List.mem_append, hu]
    · intro i hi
      dsimp only at hi ⊢
      rw [List.length_append, List.length_singleton] at hi
      by_cases hilt : i < s.highRiskBatchIds.length
      · rw [getD_append_left _ _ _ hilt, upd_apply]
        have hne : s.highRiskBatchIds.getD i 0 ≠ t :=
          fun he => hmem (he ▸ getD_mem _ _ hilt)
        rw [if_neg hne]
        exact hpos i hilt
      · have hieq : i = s.highRiskBatchIds.length := by omega
        rw [hieq, getD_concat_self, upd_same]
    · intro u hu
      dsimp only at hu ⊢
      rw [upd_apply] at hu
      by_cases hut : u = t
      · subst hut
        rw [upd_same]
        simp only [Nat.add_sub_cancel]
        refine ⟨by rw [List.length_append, List.length_singleton]; omega, ?_⟩
        exact getD_concat_self _ _
      · rw [if_neg hut] at hu
        rw [upd_ne _ _ _ hut]
        obtain ⟨hlt, hget⟩ := hback u hu
        refine ⟨by rw [List.length_append, List.length_singleton]; omega, ?_⟩
        rw [getD_append_left _ _ _ hlt]
        exact hget
  · -- removal branch: the flag was true, `t` sits in the array at slot `i`
    rename_i hb
    have hbf : b = false := by
      cases b
      · rfl
      · exact absurd rfl hb
    subst hbf
    have hflag : (s.batches t).flaggedHighRisk = true := by
      cases hfb : (s.batches t).flaggedHighRisk
      · rw [hfb] at hcur; exact absurd rfl hcur
      · rfl
    have hmem : t ∈ s.highRiskBatchIds := (hiff t).mp hflag
    obtain ⟨i, hi, harri⟩ := (mem_iff_getD _ _).mp hmem
    have hposT : s.highRiskIndexPlusOne t = i + 1 := by
      have hp := hpos i hi
      rw [harri] at hp
      exact hp
    rw [hposT, if_pos (by omega)]
    simp only [Nat.add_sub_cancel]
    have hlen0 : 0 < s.highRiskBatchIds.length := by omega
    split
    · -- swap case: slot i is not the last slot
      rename_i hne_last
      have hil : i < s.highRiskBatchIds.length - 1 := by omega
      have hmovedne : s.highRiskBatchIds.getD (s.highRiskBatchIds.length - 1) 0 ≠ t := by
        intro he
        rw [← harri] at he
        have := hinj _ _ (by omega) hi he
        omega
      have hlen' :
          ((s.highRiskBatchIds.set i
            (s.highRiskBatchIds.getD (s.highRiskBatchIds.length - 1) 0)).dropLast).length =
            s.highRiskBatchIds.length - 1 := by
        rw [List.length_dropLast, List.length_set]
      have hget' : ∀ j, j < s.highRiskBatchIds.length - 1 →
          ((s.highRiskBatchIds.set i
            (s.highRiskBatchIds.getD (s.highRiskBatchIds.length - 1) 0)).dropLast).getD j 0 =
            if i = j then s.highRiskBatchIds.getD (s.highRiskBatchIds.length - 1) 0
            else s.highRiskBatchIds.getD j 0 := by
        intro j hj
        rw [getD_dropLast _ _ (by rw [List.length_set]; omega)]
        exact getD_set _ _ _ _ (by omega)
      refine ⟨?_, ?_, ?_, ?_⟩
      · rw [nodup_iff_getD_inj]
        intro j1 j2 hj1 hj2 hj12
        rw [hlen'] at hj1 hj2
        rw [hget' j1 hj1, hget' j2 hj2] at hj12
        by_cases h1 : i = j1 <;> by_cases h2 : i = j2
        · omega
        · rw [if_pos h1, if_neg h2] at hj12
          have := hinj _ _ (by omega) (by omega) hj12
          omega
        · rw [if_neg h1, if_pos h2] at hj12
          have := hinj _ _ (by omega) (by omega) hj12
          omega
        · rw [if_neg h1, if_neg h2] at hj12
          exact hinj _ _ (by omega) (by omega) hj12
      · intro u
        dsimp only
        rw [upd_apply]
        by_cases hu : u = t
        · subst hu
          rw [if_pos rfl]
          constructor
          · intro hfalse
            exact absurd hfalse (by simp)
          · intro hmem2
            exfalso
            obtain ⟨j, hj, hgj⟩ := (mem_iff_getD _ _).mp hmem2
            rw [hlen'] at hj
            rw [hget' j hj] at hgj
            by_cases hij : i = j
            · rw [if_pos hij] at hgj
              exact hmovedne hgj
            · rw [if_neg hij] at hgj
              rw [← harri] at hgj
              have := hinj _ _ (by omega) hi hgj
              omega
        · rw [if_neg hu, hiff u]
          constructor
          · intro hmem2
            obtain ⟨j, hj, hgj⟩ := (mem_iff_getD _ _).mp hmem2
            rw [mem_iff_getD]
            rw [hlen']
            by_cases hij : j = i
            · exfalso
              apply hu
              rw [← hgj, ← harri, hij]
            · by_cases hjlast : j = s.highRiskBatchIds.length - 1
              · refine ⟨i, hil, ?_⟩
                rw [hget' i hil, if_pos rfl, ← hjlast]
                exact hgj
              · refine ⟨j, by omega, ?_⟩
                rw [hget' j (by omega), if_neg (fun he => hij he.symm)]
                exact hgj
          · intro hmem2
            obtain ⟨j, hj, hgj⟩ := (mem_iff_getD _ _).mp hmem2
            rw [hlen'] at hj
            rw [hget' j hj] at hgj
            rw [mem_iff_getD]
            by_cases hij : i = j
            · rw [if_pos hij] at hgj
              exact ⟨s.highRiskBatchIds.length - 1, by omega, hgj⟩
            · rw [if_neg hij] at hgj
              exact ⟨j, by omega, hgj⟩
      · intro j hj
        dsimp only at hj ⊢
        rw [hlen'] at hj
        rw [hget' j hj]
        by_cases hij : i = j
        · rw [if_pos hij]
          rw [upd_apply, if_neg hmovedne, upd_same]
          omega
        · rw [if_neg hij]
          have hjt : s.highRiskBatchIds.getD j 0 ≠ t := by
            intro he
            rw [← harri] at he
            have := hinj _ _ (by omega) hi he
            omega
          have hjmoved : s.highRiskBatchIds.getD j 0 ≠
              s.highRiskBatchIds.getD (s.highRiskBatchIds.length - 1) 0 := by
            intro he
            have := hinj _ _ (by omega) (by omega) he
            omega
          rw [upd_apply, if_neg hjt, upd_apply, if_neg hjmoved]
          exact hpos j (by omega)
      · intro u hu
        dsimp only at hu ⊢
        rw [upd_apply] at hu
        by_cases hut : u = t
        · rw [if_pos hut] at hu
          exact absurd rfl hu
        · rw [if_neg hut] at hu
          rw [upd_apply, if_neg hut]
          by_cases humoved : u = s.highRiskBatchIds.getD (s.highRiskBatchIds.length - 1) 0
          · rw [upd_apply, if_pos humoved] at hu ⊢
            simp only [Nat.add_sub_cancel]
            refine ⟨by rw [hlen']; omega, ?_⟩
            rw [hget' i hil, if_pos rfl]
            exact humoved.symm
          · rw [upd_apply, if_neg humoved] at hu ⊢
            obtain ⟨hlt2, hget2⟩ := hback u hu
            have hne_i : s.highRiskIndexPlusOne u - 1 ≠ i := by
              intro he
              rw [he, harri] at hget2
              exact hut hget2.symm
            have hne_last2 : s.highRiskIndexPlusOne u - 1 ≠
                s.highRiskBatchIds.length - 1 := by
              intro he
              rw [he] at hget2
              exact humoved hget2.symm
            refine ⟨by rw [hlen']; omega, ?_⟩
            rw [hget' _ (by omega), if_neg (fun he => hne_i he.symm)]
            exact hget2
    · -- last-slot case: i is the last slot, plain pop
      rename_i hlast
      have hieq : i = s.highRiskBatchIds.length - 1 := by omega
      have hlen' : (s.highRiskBatchIds.dropLast).length =
          s.highRiskBatchIds.length - 1 := List.length_dropLast _
      refine ⟨?_, ?_, ?_, ?_⟩
      · exact (List.dropLast_sublist _).nodup hnd
      · intro u
        dsimp only
        rw [upd_apply]
        by_cases hu : u = t
        · subst hu
          rw [if_pos rfl]
          constructor
          · intro hfalse
            exact absurd hfalse (by simp)
          · intro hmem2
            exfalso
            obtain ⟨j, hj, hgj⟩ := (mem_iff_getD _ _).mp hmem2
            rw [hlen'] at hj
            rw [getD_dropLast _ _ hj] at hgj
            rw [← harri] at hgj
            have := hinj _ _ (by omega) hi hgj
            omega
        · rw [if_neg hu, hiff u]
          constructor
          · intro hmem2
            obtain ⟨j, hj, hgj⟩ := (mem_iff_getD _ _).mp hmem2
            have hjne : j ≠ s.highRiskBatchIds.length - 1 := by
              intro he
              apply hu
              rw [← hgj, ← harri, he, hieq]
            rw [mem_iff_getD, hlen']
            refine ⟨j, by omega, ?_⟩
            rw [getD_dropLast _ _ (by omega)]
            exact hgj
          · intro hmem2
            obtain ⟨j, hj, hgj⟩ := (mem_iff_getD _ _).mp hmem2
            rw [hlen'] at hj
            rw [getD_dropLast _ _ hj] at hgj
            exact (mem_iff_getD _ _).mpr ⟨j, by omega, hgj⟩
      · intro j hj
        dsimp only at hj ⊢
        rw [hlen'] at hj
        rw [getD_dropLast _ _ hj]
        have hjt : s.highRiskBatchIds.getD j 0 ≠ t := by
          intro he
          rw [← harri] at he
          have := hinj _ _ (by omega) hi he
          omega
        rw [upd_apply, if_neg hjt]
        exact hpos j (by omega)
      · intro u hu
        dsimp only at hu ⊢
        rw [upd_apply] at hu
        by_cases hut : u = t
        · rw [if_pos hut] at hu
          exact absurd rfl hu
        · rw [if_neg hut] at hu
          rw [upd_apply, if_neg hut]
          obtain ⟨hlt2, hget2⟩ := hback u hu
          have hne2 : s.highRiskIndexPlusOne u - 1 ≠ s.highRiskBatchIds.length - 1 := by
            intro he
            rw [he, ← hieq, harri] at hget2
            exact hut hget2.symm
          refine ⟨by rw [hlen']; omega, ?_⟩
          rw [getD_dropLast _ _ (by omega)]
          exact hget2

theorem applyFlagCalls_coherent (l : List (Nat × Bool)) (s : ContractState)
    (h : IndexCoherent s) : IndexCoherent (applyFlagCalls s l) := by
  induction l generalizing s with
  | nil => exact h
  | cons c cs ih =>
      show IndexCoherent (applyFlagCalls (setHighRisk s c.1 c.2) cs)
      exact ih _ (setHighRisk_coherent s c.1 c.2 h)

theorem applyFlagCalls_flag (l : List (Nat × Bool)) (s : ContractState) (t : Nat) :
    ((applyFlagCalls s l).batches t).flaggedHighRisk =
      l.foldl (fun bb c => if c.1 = t then c.2 else bb)
        ((s.batches t).flaggedHighRisk) := by
  induction l generalizing s with
  | nil => rfl
  | cons c cs ih =>
      show ((applyFlagCalls (setHighRisk s c.1 c.2) cs).batches t).flaggedHighRisk = _
      rw [ih]
      show _ = cs.foldl _ (if c.1 = t then c.2 else (s.batches t).flaggedHighRisk)
      congr 1
      rw [setHighRisk_flag]
      by_cases hc : c.1 = t
      · rw [if_pos hc.symm, if_pos hc]
      · rw [if_neg (fun he => hc he.symm), if_neg hc]

theorem initialState_coherent (d : Nat) : IndexCoherent (initialState d) := by
  refine ⟨List.nodup_nil, ?_, ?_, ?_⟩
  · intro t
    simp [initialState, Batch.empty]
  · intro i hi
    simp [initialState] at hi
  · intro t ht
    simp [initialState] at ht

/-! Shared reachability chains for the concrete trace states. -/

theorem steps_to_stPolicy : Steps (initialState 1) stPolicy :=
  Relation.ReflTransGen.tail Relation.ReflTransGen.refl
    ⟨Act.policy 1 1 2 3 1 7000 0 5 0, rfl⟩

theorem steps_to_stMint1 : Steps (initialState 1) stMint1 :=
  Relation.ReflTransGen.tail steps_to_stPolicy ⟨Act.mint 1 0 1 0 1000 true 1, rfl⟩

theorem steps_to_stMint2 : Steps (initialState 1) stMint2 :=
  Relation.ReflTransGen.tail steps_to_stMint1 ⟨Act.mint 1 0 1 0 1000 true 1, rfl⟩

theorem steps_to_stAttest : Steps (initialState 1) stAttest :=
  Relation.ReflTransGen.tail steps_to_stMint1 ⟨Act.attest 1 0 0 77 false 9000, rfl⟩

theorem steps_to_stReport : Steps (initialState 1) stReport :=
  Relation.ReflTransGen.tail steps_to_stAttest ⟨Act.report 2 0 1 0 11 "" "" 1, 0, rfl⟩

theorem steps_to_stResolved : Steps (initialState 1) stResolved :=
  Relation.ReflTransGen.tail steps_to_stReport ⟨Act.resolve 1 5 0 false true, 1, rfl⟩

theorem steps_to_stTwo1 : Steps (initialState 1) stTwo1 :=
  Relation.ReflTransGen.tail steps_to_stMint2 ⟨Act.report 2 1 1 0 21 "" "" 1, 0, rfl⟩

theorem steps_to_stTwo2 : Steps (initialState 1) stTwo2 :=
  Relation.ReflTransGen.tail steps_to_stTwo1 ⟨Act.report 2 1 1 1 22 "" "" 1, 1, rfl⟩

theorem steps_to_stShrunk : Steps (initialState 1) stShrunk :=
  Relation.ReflTransGen.tail steps_to_stTwo2 ⟨Act.policy 1 1 2 3 1 7000 0 1 0, rfl⟩

theorem steps_to_stBlocked : Steps (initialState 1) stBlocked :=
  Relation.ReflTransGen.tail Relation.ReflTransGen.refl ⟨Act.setBlocked 1 5 true, rfl⟩

theorem steps_to_stQuar : Steps (initialState 1) stQuar :=
  Relation.ReflTransGen.tail steps_to_stMint1 ⟨Act.quarantine 1 0 true "CDSCO", rfl⟩

/-! ## Claim theorems -/

/-- Claim C1: for every report resolved with `confirmedFake = false`, the pool
is credited with exactly `floor(stakeAmount * falseReportSlashBps / 10000)`,
the payout is the stake minus that slashed amount (so the stake splits exactly
into payout plus pool credit), and the reporter loses exactly
`12 + severity * 6` reputation. -/
theorem claim1_rejected_accounting (s s' : ContractState)
    (sender now reportId payout : Nat) (r : FakeReport) (transferOk : Bool)
    (hbps : s.falseReportSlashBps ≤ 10000)
    (hr : s.reports reportId = some r)
    (hok : resolveReport s sender now reportId false transferOk = .ok (s', payout)) :
    s'.bountyPoolWei = s.bountyPoolWei + r.stakeAmount * s.falseReportSlashBps / 10000 ∧
    payout = r.stakeAmount - r.stakeAmount * s.falseReportSlashBps / 10000 ∧
    r.stakeAmount = payout + r.stakeAmount * s.falseReportSlashBps / 10000 ∧
    (s'.reporterProfiles r.reporter).reputation =
      (s.reporterProfiles r.reporter).reputation - ((12 + r.severity * 6 : Nat) : Int) := by
  obtain ⟨-, -, r2, hr2, -, -, hout, -⟩ := resolveReport_ok hok
  rw [hr] at hr2
  injection hr2 with he
  subst he
  rw [if_neg Bool.false_ne_true] at hout
  have hs' := congrArg Prod.fst hout
  have hp := congrArg Prod.snd hout
  dsimp only at hs' hp
  have hle : r.stakeAmount * s.falseReportSlashBps / 10000 ≤ r.stakeAmount := by
    have hmul : r.stakeAmount * s.falseReportSlashBps ≤ r.stakeAmount * 10000 :=
      mul_le_mul_left' hbps _
    omega
  rw [rrPayout] at hp
  refine ⟨?_, hp, by omega, ?_⟩
  · rw [hs', rrPool]
  · rw [hs', rrProfileSelf]

/-- Claim C1 witness: the concrete RejectedFalse resolution in the trace
(stake 1 wei, severity 1, slash 7000 bps, slashed amount 0). -/
theorem claim1_witness :
    stResolved.bountyPoolWei =
      stReport.bountyPoolWei + cexReport1.stakeAmount * stReport.falseReportSlashBps / 10000 ∧
    1 = cexReport1.stakeAmount - cexReport1.stakeAmount * stReport.falseReportSlashBps / 10000 ∧
    cexReport1.stakeAmount = 1 + cexReport1.stakeAmount * stReport.falseReportSlashBps / 10000 ∧
    (stResolved.reporterProfiles cexReport1.reporter).reputation =
      (stReport.reporterProfiles cexReport1.reporter).reputation
        - ((12 + cexReport1.severity * 6 : Nat) : Int) :=
  claim1_rejected_accounting stReport stResolved 1 5 0 1 cexReport1 true
    (by decide) (by decide) (by rfl)

/-- Claim C2: for every report resolved with `confirmedFake = true`, the
reporter gains exactly `10 + severity * 4` reputation, the payout is the
stake plus `min(baseRewardWei * severity, pool)`, the pool is debited by
exactly that bounded reward (so it cannot underflow), and every successful
`withdrawBountyPool` likewise debits an amount bounded by the current pool
balance. -/
theorem claim2_confirmed_accounting (s s' : ContractState)
    (sender now reportId payout : Nat) (r : FakeReport) (transferOk : Bool)
    (hr : s.reports reportId = some r)
    (hok : resolveReport s sender now reportId true transferOk = .ok (s', payout)) :
    (s'.reporterProfiles r.reporter).reputation =
      (s.reporterProfiles r.reporter).reputation + ((10 + r.severity * 4 : Nat) : Int) ∧
    payout = r.stakeAmount + min (s.baseRewardWei * r.severity) s.bountyPoolWei ∧
    min (s.baseRewardWei * r.severity) s.bountyPoolWei ≤ s.bountyPoolWei ∧
    s'.bountyPoolWei + min (s.baseRewardWei * r.severity) s.bountyPoolWei =
      s.bountyPoolWei ∧
    (∀ s2 s2' : ContractState, ∀ sender2 dest amount : Nat, ∀ tOk2 : Bool,
      withdrawBountyPool s2 sender2 dest amount tOk2 = .ok s2' →
      amount ≤ s2.bountyPoolWei ∧ s2'.bountyPoolWei + amount = s2.bountyPoolWei) := by
  obtain ⟨-, -, r2, hr2, -, -, hout, -⟩ := resolveReport_ok hok
  rw [hr] at hr2
  injection hr2 with he
  subst he
  rw [if_pos rfl] at hout
  have hs' := congrArg Prod.fst hout
  have hp := congrArg Prod.snd hout
  dsimp only at hs' hp
  have hmin : min (s.baseRewardWei * r.severity) s.bountyPoolWei ≤ s.bountyPoolWei :=
    min_le_right _ _
  rw [rcPayout] at hp
  refine ⟨?_, hp, hmin, ?_, ?_⟩
  · rw [hs', rcProfileSelf]
  · rw [hs', rcPool]; omega
  · intro s2 s2' sender2 dest amount tOk2 hw
    obtain ⟨-, -, hle, -, hs2⟩ := withdrawBountyPool_ok hw
    subst hs2
    exact ⟨hle, by dsimp only; omega⟩

/-- Claim C2 witness: the concrete ConfirmedFake resolution (stake 1 wei,
severity 1, base reward 1, pool 1 at call time) together with an instance of
the withdraw bound. -/
theorem claim2_witness :
    (stConfirmed.reporterProfiles cexReport1.reporter).reputation =
      (stReport.reporterProfiles cexReport1.reporter).reputation
        + ((10 + cexReport1.severity * 4 : Nat) : Int) ∧
    1 = cexReport1.stakeAmount
        + min (stReport.baseRewardWei * cexReport1.severity) stReport.bountyPoolWei ∧
    min (stReport.baseRewardWei * cexReport1.severity) stReport.bountyPoolWei ≤
      stReport.bountyPoolWei ∧
    stConfirmed.bountyPoolWei
        + min (stReport.baseRewardWei * cexReport1.severity) stReport.bountyPoolWei =
      stReport.bountyPoolWei ∧
    (∀ s2 s2' : ContractState, ∀ sender2 dest amount : Nat, ∀ tOk2 : Bool,
      withdrawBountyPool s2 sender2 dest amount tOk2 = .ok s2' →
      amount ≤ s2.bountyPoolWei ∧ s2'.bountyPoolWei + amount = s2.bountyPoolWei) :=
  claim2_confirmed_accounting stReport stConfirmed 1 5 0 1 cexReport1 true
    (by decide) (by rfl)

/-- Claim C9: the plain-value receive function credits the full sent amount to
the pool for any sender with no role check, while the explicit
`fundBountyPool` entry point rejects every non-regulator caller. -/
theorem claim9_receive_unguarded :
    (∀ (s : ContractState) (sender msgValue : Nat),
      (receiveEther s sender msgValue).bountyPoolWei = s.bountyPoolWei + msgValue) ∧
    (∀ (s : ContractState) (sender msgValue : Nat),
      s.regulatorRole sender = false →
      fundBountyPool s sender msgValue = .error .missingRole) := by
  constructor
  · intro s sender msgValue
    rfl
  · intro s sender msgValue h
    unfold fundBountyPool
    rw [if_pos (by simp [h])]

/-- Claim C9 witness: address 9 (no role at all) credits 4 wei through
receive, while its `fundBountyPool` call fails the role check. -/
theorem claim9_witness :
    (receiveEther st0 9 4).bountyPoolWei = st0.bountyPoolWei + 4 ∧
    fundBountyPool st0 9 4 = .error .missingRole :=
  ⟨claim9_receive_unguarded.1 st0 9 4, claim9_receive_unguarded.2 st0 9 4 (by decide)⟩

/-- Claim C10: while paused, every submit and every resolve call fails with
the pause error (returning no state), pausing only flips the paused bit, and
a pause followed by an unpause restores the state exactly, so both
operations behave as before afterwards. -/
theorem claim10_pause_gating :
    (∀ s : ContractState, s.paused = true →
      (∀ (sender now msgValue tokenId nullifier : Nat) (evidenceURI reason : String)
          (severity : Nat),
        reportSuspiciousBatch s sender now msgValue tokenId nullifier evidenceURI
          reason severity = .error .enforcedPause) ∧
      (∀ (sender now reportId : Nat) (c tOk : Bool),
        resolveReport s sender now reportId c tOk = .error .enforcedPause)) ∧
    (∀ (s s' : ContractState) (sender : Nat), pauseOp s sender = .ok s' →
      s' = ({ s with paused := true })) ∧
    (∀ (s s1 s2 : ContractState) (x y : Nat), s.paused = false →
      pauseOp s x = .ok s1 → unpauseOp s1 y = .ok s2 → s2 = s) := by
  refine ⟨?_, ?_, ?_⟩
  · intro s hp
    constructor
    · intro sender now msgValue tokenId nullifier evidenceURI reason severity
      unfold reportSuspiciousBatch
      rw [if_pos hp]
    · intro sender now reportId c tOk
      unfold resolveReport
      rw [if_pos hp]
  · intro s s' sender h
    exact (pauseOp_ok h).2.2
  · intro s s1 s2 x y hp h1 h2
    obtain ⟨-, -, hs1⟩ := pauseOp_ok h1
    subst hs1
    obtain ⟨-, -, hs2⟩ := unpauseOp_ok h2
    subst hs2
    cases s
    simp_all

/-- Claim C10 witness: in the concretely paused deployment both operations
fail with the pause error, the paused state differs from the fresh one only
in the paused bit, and unpausing restores the fresh deployment exactly. -/
theorem claim10_witness :
    reportSuspiciousBatch stPaused 2 0 1 0 11 "" "" 1 = .error .enforcedPause ∧
    resolveReport stPaused 1 0 0 true true = .error .enforcedPause ∧
    stPaused = ({ st0 with paused := true }) ∧
    stUnpaused = st0 :=
  ⟨(claim10_pause_gating.1 stPaused rfl).1 2 0 1 0 11 "" "" 1,
   (claim10_pause_gating.1 stPaused rfl).2 1 0 0 true true,
   claim10_pause_gating.2.1 st0 stPaused 1 rfl,
   claim10_pause_gating.2.2 st0 stPaused stUnpaused 1 1 rfl rfl rfl⟩

/-- Claim C3 counterexample: in the reachable state `stResolved`, batch 0 has
a failed lab attestation on record (a qualifying risk condition), yet its
high-risk flag is false — resolving an unrelated-reason report as
RejectedFalse cleared the flag while the failed-attestation reason still
stood. So the flag does not cover all qualifying risk conditions. -/
theorem claim3_counterexample :
    Reachable stResolved ∧
    cexAttest ∈ stResolved.labAttestations 0 ∧ cexAttest.passed = false ∧
    (stResolved.batches 0).flaggedHighRisk = false ∧
    ¬ HighRiskCoversRisk stResolved := by
  refine ⟨⟨1, steps_to_stResolved⟩, by decide, rfl, by decide, fun hcov => ?_⟩
  have hflag := hcov 0 (Or.inr (Or.inr (Or.inr ⟨cexAttest, by decide, rfl⟩)))
  exact absurd hflag (by decide)

/-- Claim C3 (amended): in every reachable state the high-risk flag covers
the risk conditions the code actually maintains it for — quarantine and a
positive pending-severe-report count. Confirmed-fake history and failed lab
attestations set the flag when they occur but are not re-derived, so later
operations may clear the flag while those reasons still stand. -/
theorem claim3_high_risk_invariant (s : ContractState) (hs : Reachable s) :
    HighRiskCoversCoreRisk s :=
  reachable_core_risk hs

/-- Claim C3 witness: in the reachable state with batch 0 quarantined, the
amended invariant forces the high-risk flag on. -/
theorem claim3_witness : (stQuar.batches 0).flaggedHighRisk = true :=
  claim3_high_risk_invariant stQuar ⟨1, steps_to_stQuar⟩ 0 (Or.inl (by decide))

/-- Claim C4: once a submit call has succeeded with a nullifier, the
nullifier stays marked used in every later reachable state, and every
subsequent submit call presenting it fails, for every actor and item. -/
theorem claim4_nullifier_single_use
    (s0 s s' : ContractState) (sender now msgValue tokenId nullifier : Nat)
    (evidenceURI reason : String) (severity rid : Nat)
    (hsub : reportSuspiciousBatch s0 sender now msgValue tokenId nullifier
      evidenceURI reason severity = .ok (s, rid))
    (hsteps : Steps s s') :
    s'.identityNullifierUsed nullifier = true ∧
    ∀ (sender2 now2 msgValue2 tokenId2 : Nat) (evidenceURI2 reason2 : String)
      (severity2 : Nat),
      isOk (reportSuspiciousBatch s' sender2 now2 msgValue2 tokenId2 nullifier
        evidenceURI2 reason2 severity2) = false := by
  obtain ⟨-, -, -, -, -, -, -, -, -, hout⟩ := reportSuspiciousBatch_ok hsub
  have hs := congrArg Prod.fst hout
  dsimp only at hs
  have hused : s.identityNullifierUsed nullifier = true := by
    rw [hs, submitOk_nullifiers, upd_same]
  have hused' := steps_nullifier_mono hsteps nullifier hused
  exact ⟨hused', fun sender2 now2 msgValue2 tokenId2 evidenceURI2 reason2 severity2 =>
    submit_fails_on_used_nullifier s' sender2 now2 msgValue2 tokenId2 nullifier
      evidenceURI2 reason2 severity2 hused'⟩

/-- Claim C4 witness: after the concrete submit with nullifier 11, that
nullifier is used and a fresh submit by another actor on another batch with
the same nullifier fails. -/
theorem claim4_witness :
    stReport.identityNullifierUsed 11 = true ∧
    isOk (reportSuspiciousBatch stReport 3 99 5 1 11 "" "" 2) = false :=
  ⟨(claim4_nullifier_single_use stAttest stReport stReport 2 0 1 0 11 "" "" 1 0 rfl
      Relation.ReflTransGen.refl).1,
   (claim4_nullifier_single_use stAttest stReport stReport 2 0 1 0 11 "" "" 1 0 rfl
      Relation.ReflTransGen.refl).2 3 99 5 1 "" "" 2⟩

/-- Claim C5 counterexample: the open-reports bound is not an invariant
across interleavings that include `setPolicyParameters` — after two reports
are opened under limit 5, the regulator shrinks the limit to 1, reaching a
state where reporter 2 holds 2 open reports against a maximum of 1. -/
theorem claim5_counterexample :
    Reachable stShrunk ∧
    (stShrunk.reporterProfiles 2).openReports = 2 ∧
    stShrunk.maxOpenReportsPerReporter = 1 ∧
    ¬ OpenReportsBounded stShrunk :=
  ⟨⟨1, steps_to_stShrunk⟩, rfl, rfl, fun hinv => absurd (hinv 2) (by decide)⟩

/-- Claim C5 (amended): the open-reports bound holds initially and is
preserved by every transaction except `setPolicyParameters`, which can lower
`maxOpenReportsPerReporter` below an existing reporter count. -/
theorem claim5_open_reports_bound :
    (∀ d : Nat, OpenReportsBounded (initialState d)) ∧
    (∀ (a : Act) (s s' : ContractState), stepTo a s s' → Act.isPolicyAct a = false →
      OpenReportsBounded s → OpenReportsBounded s') :=
  ⟨fun d x => Nat.zero_le _,
   fun a s s' h hpol hinv => stepTo_open_bound a s s' h hpol hinv⟩

/-- Claim C5 witness: preservation instantiated at a concrete funding step
from the fresh deployment. -/
theorem claim5_witness :
    (stFund.reporterProfiles 7).openReports ≤ stFund.maxOpenReportsPerReporter :=
  claim5_open_reports_bound.2 (Act.fund 1 5) st0 stFund rfl rfl
    (fun x => Nat.zero_le _) 7

/-- Claim C6: a successful resolve settles the report's status to
ConfirmedFake or RejectedFalse according to the verdict, and in every later
reachable state a second resolve call on the same id fails — with the
state-conflict error `alreadyResolved` whenever it gets past the pause and
role guards — returning no state. -/
theorem claim6_resolve_exactly_once (s s' s'' : ContractState)
    (sender now reportId payout : Nat) (c tOk : Bool)
    (hreach : Reachable s)
    (hok : resolveReport s sender now reportId c tOk = .ok (s', payout))
    (hsteps : Steps s' s'') :
    (∃ r', s'.reports reportId = some r' ∧ r'.reporter ≠ 0 ∧
      r'.status = (if c then ReportStatus.confirmedFake else ReportStatus.rejectedFalse)) ∧
    (∀ (sender2 now2 : Nat) (c2 tOk2 : Bool),
      (∃ e, resolveReport s'' sender2 now2 reportId c2 tOk2 = .error e) ∧
      (s''.paused = false → s''.regulatorRole sender2 = true →
        resolveReport s'' sender2 now2 reportId c2 tOk2 = .error .alreadyResolved)) := by
  obtain ⟨-, -, r, hr, hrep, -, hout, -⟩ := resolveReport_ok hok
  have hstep : stepTo (Act.resolve sender now reportId c tOk) s s' := ⟨payout, hok⟩
  have hids : IdsBelowCounter s := reachable_ids_below hreach
  have hids' : IdsBelowCounter s' := stepTo_ids_below _ _ _ hstep hids
  have hfirst : ∃ r', s'.reports reportId = some r' ∧ r'.reporter ≠ 0 ∧
      r'.status = (if c then ReportStatus.confirmedFake else ReportStatus.rejectedFalse) := by
    cases c with
    | false =>
        rw [if_neg Bool.false_ne_true] at hout
        have hs' := congrArg Prod.fst hout
        dsimp only at hs'
        refine ⟨({ r with
            resolver := sender,
            resolvedAt := now,
            status := ReportStatus.rejectedFalse }), ?_, hrep, ?_⟩
        · rw [hs', rrReports, upd_same]
        · rw [if_neg Bool.false_ne_true]
    | true =>
        rw [if_pos rfl] at hout
        have hs' := congrArg Prod.fst hout
        dsimp only at hs'
        refine ⟨({ r with
            resolver := sender,
            resolvedAt := now,
            status := ReportStatus.confirmedFake }), ?_, hrep, ?_⟩
        · rw [hs', rcReports, upd_same]
        · rw [if_pos rfl]
  have hset' : ReportSettled reportId s' := by
    obtain ⟨r', hr', hrep', hst'⟩ := hfirst
    refine ⟨r', hr', hrep', ?_⟩
    rw [hst']
    cases c <;> simp
  have hset'' := steps_settled reportId hsteps hids' hset'
  exact ⟨hfirst, fun sender2 now2 c2 tOk2 =>
    resolve_fails_when_settled s'' reportId hset'' sender2 now2 c2 tOk2⟩

/-- Claim C6 witness: after the concrete RejectedFalse resolution of report
0, a second resolve of report 0 fails with the state-conflict error. -/
theorem claim6_witness :
    resolveReport stResolved 1 9 0 true true = .error .alreadyResolved :=
  ((claim6_resolve_exactly_once stReport stResolved stResolved 1 5 0 1 false true
      ⟨1, steps_to_stReport⟩ rfl Relation.ReflTransGen.refl).2 1 9 true true).2
    (by decide) (by decide)

/-- Claim C7: after any sequence of set-high-risk-flag calls from a fresh
deployment, the dense index array contains exactly the items whose last
`setFlag(..., true)` was not undone by a later `setFlag(..., false)`, and
the swap-remove structure stays coherent: no duplicates, flag bit agrees
with membership, and the position map and array point at each other. -/
theorem claim7_high_risk_index (d : Nat) (l : List (Nat × Bool)) :
    (∀ t, t ∈ (applyFlagCalls (initialState d) l).highRiskBatchIds ↔ lastFlag l t = true) ∧
    IndexCoherent (applyFlagCalls (initialState d) l) := by
  have hco := applyFlagCalls_coherent l (initialState d) (initialState_coherent d)
  refine ⟨fun t => ?_, hco⟩
  have hflag := applyFlagCalls_flag l (initialState d) t
  rw [show ((initialState d).batches t).flaggedHighRisk = false from rfl] at hflag
  rw [← hco.2.1 t, hflag]
  exact Iff.rfl

/-- Claim C7 witness: after setting 5 and 7 high-risk and then clearing 7,
batch 5 is in the index and the index has no duplicates. -/
theorem claim7_witness :
    5 ∈ (applyFlagCalls (initialState 1) [(5, true), (7, true), (7, false)]).highRiskBatchIds ∧
    (applyFlagCalls (initialState 1) [(5, true), (7, true), (7, false)]).highRiskBatchIds.Nodup :=
  ⟨((claim7_high_risk_index 1 [(5, true), (7, true), (7, false)]).1 5).mpr (by decide),
   (claim7_high_risk_index 1 [(5, true), (7, true), (7, false)]).2.1⟩

/-- Claim C8 counterexample: `blocked` is not monotonic toward true — the
regulator blocks reporter 5 and then a single `setReporterBlocked(5, false)`
transaction sets it back to false in a reachable state. -/
theorem claim8_counterexample :
    Reachable stBlocked ∧ (stBlocked.reporterProfiles 5).blocked = true ∧
    stepTo (Act.setBlocked 1 5 false) stBlocked stUnblocked ∧
    (stUnblocked.reporterProfiles 5).blocked = false :=
  ⟨⟨1, steps_to_stBlocked⟩, rfl, rfl, rfl⟩

/-- Claim C8 (amended): `blocked` is preserved toward true by every
transaction except an explicit regulator `setReporterBlocked(rep, false)`
(there is no automatic unblocking), and while blocked every submit call by
that actor fails. -/
theorem claim8_blocked_sticky :
    (∀ (a : Act) (s s' : ContractState) (rep : Nat),
      stepTo a s s' → Act.unblocksReporter a rep = false →
      (s.reporterProfiles rep).blocked = true → (s'.reporterProfiles rep).blocked = true) ∧
    (∀ (s : ContractState) (sender now msgValue tokenId nullifier : Nat)
        (evidenceURI reason : String) (severity : Nat),
      (s.reporterProfiles sender).blocked = true →
      isOk (reportSuspiciousBatch s sender now msgValue tokenId nullifier
        evidenceURI reason severity) = false) :=
  ⟨fun a s s' rep h hnb hb => stepTo_blocked_mono a s s' rep h hnb hb,
   fun s sender now msgValue tokenId nullifier evidenceURI reason severity hb =>
     submit_fails_when_blocked s sender now msgValue tokenId nullifier
       evidenceURI reason severity hb⟩

/-- Claim C8 witness: reporter 5 stays blocked across a concrete funding
transaction, and their submit attempt fails while blocked. -/
theorem claim8_witness :
    (stBlockedFund.reporterProfiles 5).blocked = true ∧
    isOk (reportSuspiciousBatch stBlocked 5 0 1 0 33 "" "" 1) = false :=
  ⟨claim8_blocked_sticky.1 (Act.fund 1 5) stBlocked stBlockedFund 5 rfl rfl rfl,
   claim8_blocked_sticky.2 stBlocked 5 0 1 0 33 "" "" 1 rfl⟩

end PharmaGuard
